import Mathlib

/-!
Shallow embedding of the cmumford/rds RDS decoder.

Machine integers are modelled as `Nat` (with explicit truncation `% 2^w`
or `&&& 0xFF` exactly where the C code converts to a narrower type), C
`bool` as `Bool`, and the C structs as Lean structures with the same
field names.  Arrays become `List`s of the declared length; array writes
use `List.set`, which is in bounds at every call site that the C code
guards.  Each definition is translated from the corresponding function in
`src/freq_table.c`, `src/freq_table_group.c` or `src/rds_decoder.c`
(the repository defines `RDS_DEV` in `rds_decoder.h`, so the statistics
code is active and is modelled too).
-/

set_option maxHeartbeats 1000000

/-- BLER class: no block errors. -/
def BLER_NONE : Nat := 0
/-- BLER class: 1-2 block errors. -/
def BLER_1_2 : Nat := 1
/-- BLER class: 3-5 block errors. -/
def BLER_3_5 : Nat := 2
/-- BLER class: 6+ block errors. -/
def BLER_6_PLUS : Nat := 3

/-- Maximum allowed errors for block A. -/
def BLERA_MAX : Nat := BLER_3_5
/-- Maximum allowed errors for block B. -/
def BLERB_MAX : Nat := BLER_1_2
/-- Maximum allowed errors for block C. -/
def BLERC_MAX : Nat := BLER_3_5
/-- Maximum allowed errors for block D. -/
def BLERD_MAX : Nat := BLER_3_5

/-- `struct rds_block`: a 16-bit value plus a BLER error class. -/
structure rds_block where
  val : Nat
  errors : Nat
deriving DecidableEq

/-- `struct rds_blocks`: all four RDS data blocks. -/
structure rds_blocks where
  a : rds_block
  b : rds_block
  c : rds_block
  d : rds_block
deriving DecidableEq

/-- `struct rds_group_type`: group type code 0..15 and version character
('A' or 'B'; a zero-initialised entry holds the NUL character). -/
structure rds_group_type where
  code : Nat
  version : Char
deriving DecidableEq

/-- `enum rds_band`. -/
inductive rds_band where
  | UHF
  | LF_MF
deriving DecidableEq

/-- `enum rds_af_attrib`. -/
inductive rds_af_attrib where
  | SAME_PROG
  | REG_VARIANT
deriving DecidableEq

/-- `enum rds_af_encoding`. -/
inductive rds_af_encoding where
  | UNKNOWN
  | A
  | B
deriving DecidableEq

/-- `struct rds_freq`. -/
structure rds_freq where
  band : rds_band
  attrib : rds_af_attrib
  freq : Nat
deriving DecidableEq

/-- An all-zero-bytes `struct rds_freq` (band UHF = 0, attrib SAME_PROG = 0). -/
def freqZero : rds_freq := { band := .UHF, attrib := .SAME_PROG, freq := 0 }

/-- `struct rds_af_table`: `entry` has declared length 25. -/
structure rds_af_table where
  tuned_freq : rds_freq
  count : Nat
  entry : List rds_freq
deriving DecidableEq

/-- `struct rds_af_decode_table` (the nested anonymous `pvt` struct is
flattened with a `pvt_` prefix). -/
structure rds_af_decode_table where
  table : rds_af_table
  enc_method : rds_af_encoding
  pvt_band : rds_band
  pvt_prev_enc_method : rds_af_encoding
  pvt_expected_cnt : Nat
deriving DecidableEq

/-- An all-zero-bytes `struct rds_af_decode_table`. -/
def afDecodeTableZero : rds_af_decode_table :=
  { table := { tuned_freq := freqZero, count := 0, entry := List.replicate 25 freqZero }
    enc_method := .UNKNOWN
    pvt_band := .UHF
    pvt_prev_enc_method := .UNKNOWN
    pvt_expected_cnt := 0 }

/-- `struct rds_af_table_group`: `table` has declared length 20. -/
structure rds_af_table_group where
  pvt_current_table_idx : Int
  count : Nat
  table : List rds_af_decode_table
deriving DecidableEq

/- ---------------------------------------------------------------------
src/freq_table.c
--------------------------------------------------------------------- -/

def AF_MIN_FREQ_CODE : Nat := 1
def AF_MAX_FREQ_CODE : Nat := 204
def AF_FILLER_CODE : Nat := 205
def AF_MIN_COUNT_CODE : Nat := 225
def AF_MAX_COUNT_CODE : Nat := 249
def AF_LF_MF_FOLLOWS : Nat := 250

/-- `freq_code_is_freq`: does the frequency code represent a frequency? -/
def freq_code_is_freq (freq_code : Nat) : Bool :=
  decide (AF_MIN_FREQ_CODE ≤ freq_code ∧ freq_code ≤ AF_MAX_FREQ_CODE)

/-- `freq_eq` (from the bottom of freq_table.c): band and value equal,
attrib ignored. -/
def freq_eq (a b : rds_freq) : Bool :=
  decide (a.band = b.band ∧ a.freq = b.freq)

/-- `freq_lt`: is frequency a < b?  LF/MF sorts below UHF. -/
def freq_lt (a b : rds_freq) : Bool :=
  if a.band = b.band then decide (a.freq < b.freq)
  else if a.band = .LF_MF ∧ b.band = .UHF then true
  else false

/-- `find_af_freq_idx`: index of `freq` among the first `count` entries,
-1 when absent. -/
def find_af_freq_idx (table : rds_af_table) (freq : rds_freq) : Int :=
  match (List.range table.count).find? (fun i => freq_eq (table.entry.getD i freqZero) freq) with
  | some i => (i : Int)
  | none => -1

/-- `freq_in_af_table`. -/
def freq_in_af_table (table : rds_af_table) (freq : rds_freq) : Bool :=
  decide (find_af_freq_idx table freq ≠ -1)

/-- `dec_af_expected_count`: saturating decrement of the expected count. -/
def dec_af_expected_count (table : rds_af_decode_table) : rds_af_decode_table :=
  if table.pvt_expected_cnt = 0 then table
  else { table with pvt_expected_cnt := table.pvt_expected_cnt - 1 }

/-- `insert_alt_freq`: append `freq` to the table unless the table is
full (25 = ARRAY_SIZE(entry)) or the frequency is already present.
Returns the C function's bool result alongside the updated table. -/
def insert_alt_freq (table : rds_af_table) (freq : rds_freq) : Bool × rds_af_table :=
  if table.count ≥ 25 then (false, table)
  else if freq_in_af_table table freq then (false, table)
  else (true, { table with entry := table.entry.set table.count freq, count := table.count + 1 })

/-- `add_alt_freq`: decrement the expected count, then insert. -/
def add_alt_freq (table : rds_af_decode_table) (freq : rds_freq) : rds_af_decode_table :=
  let table := dec_af_expected_count table
  { table with table := (insert_alt_freq table.table freq).2 }

/-- `handle_freq_code`: returns (handled, updated table). -/
def handle_freq_code (table : rds_af_decode_table) (freq_code : Nat) :
    Bool × rds_af_decode_table :=
  if freq_code = AF_FILLER_CODE then (true, dec_af_expected_count table)
  else if freq_code = AF_LF_MF_FOLLOWS then
    (true, dec_af_expected_count { table with pvt_band := .LF_MF })
  else
    let handled := !(freq_code_is_freq freq_code)
    if handled then (true, dec_af_expected_count table) else (false, table)

/-- `is_freq_code_count`. -/
def is_freq_code_count (freq_code : Nat) : Bool :=
  decide (AF_MIN_COUNT_CODE ≤ freq_code ∧ freq_code ≤ AF_MAX_COUNT_CODE)

/-- `freq_code_to_count`. -/
def freq_code_to_count (freq_code : Nat) : Nat :=
  1 + freq_code - AF_MIN_COUNT_CODE

/-- `af_code_to_freq`: the C function computes in `int` and returns
`uint16_t`; the `% 65536` models that return conversion (the LF branch
can go negative for code 0 in C, hence the `Int` arithmetic). -/
def af_code_to_freq (freq_code : Nat) (band : rds_band) : Nat :=
  (((if band = .UHF then 876 + (freq_code : Int) - 1
     else if freq_code < 16 then 153 + 9 * ((freq_code : Int) - 1)
     else 531 + 9 * ((freq_code : Int) - 16)) % 65536).toNat)

/-- `decode_freq_table_start_block`. -/
def decode_freq_table_start_block (table : rds_af_decode_table)
    (num_freqs_in_table second_byte : Nat) : rds_af_decode_table :=
  let table := { table with pvt_expected_cnt := num_freqs_in_table, pvt_band := .UHF }
  let table :=
    if table.pvt_prev_enc_method ≠ .UNKNOWN then
      { table with enc_method := table.pvt_prev_enc_method }
    else table
  let hr := handle_freq_code table second_byte
  let handled := hr.1
  let table := hr.2
  if handled then table
  else
    let freq : rds_freq :=
      { band := table.pvt_band
        attrib := .SAME_PROG
        freq := af_code_to_freq second_byte table.pvt_band }
    add_alt_freq table freq

/-- The emission tail of `decode_freq_table_nth_block`: the code after
the encoding-method decision (method-A emission and method-B
anchor/attrib handling). -/
def decode_freq_table_nth_block_emit (table : rds_af_decode_table)
    (handled_first handled_second : Bool) (first_freq second_freq : rds_freq) :
    rds_af_decode_table :=
  let table := { table with pvt_prev_enc_method := table.enc_method }
  if table.enc_method = .A then
    let table := if !handled_first then add_alt_freq table first_freq else table
    if !handled_second then add_alt_freq table second_freq else table
  else
    -- Method B:
    if handled_first ∨ handled_second then table
    else if freq_eq table.table.tuned_freq first_freq then
      let second_freq :=
        if freq_lt first_freq second_freq then
          { second_freq with attrib := .REG_VARIANT }
        else second_freq
      add_alt_freq table second_freq
    else if freq_eq table.table.tuned_freq second_freq then
      let first_freq :=
        if freq_lt first_freq second_freq then
          { first_freq with attrib := .REG_VARIANT }
        else first_freq
      add_alt_freq table first_freq
    else table

/-- `decode_freq_table_nth_block`.  The C early `return` in the
method-UNKNOWN both-bytes-special case is modelled with an
`Option`: `none` returns the table as updated by the two
`handle_freq_code` calls. -/
def decode_freq_table_nth_block (table : rds_af_decode_table)
    (first_byte second_byte : Nat) : rds_af_decode_table :=
  if table.pvt_expected_cnt = 0 then table
  else
    let hr1 := handle_freq_code table first_byte
    let handled_first := hr1.1
    let table := hr1.2
    let first_freq : rds_freq :=
      { band := table.pvt_band
        attrib := .SAME_PROG
        freq := af_code_to_freq first_byte table.pvt_band }
    let hr2 := handle_freq_code table second_byte
    let handled_second := hr2.1
    let table := hr2.2
    let second_freq : rds_freq :=
      { band := table.pvt_band
        attrib := .SAME_PROG
        freq := af_code_to_freq second_byte table.pvt_band }
    let decided : Option rds_af_decode_table :=
      if table.enc_method ≠ .UNKNOWN then some table
      else if handled_first ∧ handled_second then none
      else if handled_first ∨ handled_second then some { table with enc_method := .A }
      else if freq_eq first_freq table.table.tuned_freq ∨
              freq_eq second_freq table.table.tuned_freq then
        some { table with enc_method := .B }
      else
        let table := { table with enc_method := .A }
        if table.table.tuned_freq.freq ≠ 0 then
          let table := add_alt_freq table table.table.tuned_freq
          some { table with table := { table.table with tuned_freq := freqZero } }
        else some table
    match decided with
    | none => table
    | some table =>
      decode_freq_table_nth_block_emit table handled_first handled_second
        first_freq second_freq

/- ---------------------------------------------------------------------
src/freq_table_group.c
--------------------------------------------------------------------- -/

/-- Read-modify-write of `group->table[i]` (every C call site has
`i < 20`; out of range the write is dropped). -/
def tablesModify (ts : List rds_af_decode_table) (i : Nat)
    (f : rds_af_decode_table → rds_af_decode_table) : List rds_af_decode_table :=
  ts.set i (f (ts.getD i afDecodeTableZero))

/-- `find_af_table_idx`: index of the table whose `tuned_freq` matches,
-1 when absent. -/
def find_af_table_idx (group : rds_af_table_group) (tuned_freq : rds_freq) : Int :=
  match (List.range group.count).find?
      (fun i => freq_eq ((group.table.getD i afDecodeTableZero).table.tuned_freq) tuned_freq) with
  | some i => (i : Int)
  | none => -1

/-- `decode_af_start_block`.  The C early `return` when all 20 tables
are in use is modelled with an `Option`. -/
def decode_af_start_block (group : rds_af_table_group)
    (num_freqs_in_table second_byte : Nat) : rds_af_table_group :=
  let stage1 :=
    if group.count = 1 ∧ (group.table.getD 0 afDecodeTableZero).enc_method = .A then
      ({ group with pvt_current_table_idx := 0 }, rds_af_encoding.A)
    else
      ({ group with pvt_current_table_idx := -1 }, rds_af_encoding.UNKNOWN)
  let stage2 :=
    if num_freqs_in_table = 1 then
      ({ stage1.1 with pvt_current_table_idx := 0 }, rds_af_encoding.A)
    else stage1
  let group := stage2.1
  let encoding_method := stage2.2
  let groupOpt : Option rds_af_table_group :=
    if group.pvt_current_table_idx = -1 then
      let freq : rds_freq :=
        { band := .UHF
          attrib := .SAME_PROG
          freq := af_code_to_freq second_byte .UHF }
      let idx := find_af_table_idx group freq
      if idx = -1 then
        if group.count = 20 then none
        else
          let newIdx := group.count
          let group := { group with pvt_current_table_idx := (newIdx : Int), count := group.count + 1 }
          some (tablesModify' group newIdx (fun t =>
            let t := { t with enc_method := encoding_method }
            if t.enc_method = .UNKNOWN then
              { t with table := { t.table with tuned_freq := freq } }
            else t))
      else some { group with pvt_current_table_idx := idx }
    else some group
  match groupOpt with
  | none => group
  | some group =>
    tablesModify' group group.pvt_current_table_idx.toNat
      (fun t => decode_freq_table_start_block t num_freqs_in_table second_byte)
where
  tablesModify' (g : rds_af_table_group) (i : Nat)
      (f : rds_af_decode_table → rds_af_decode_table) : rds_af_table_group :=
    { g with table := tablesModify g.table i f }

/-- `decode_af_nth_block`. -/
def decode_af_nth_block (group : rds_af_table_group)
    (first_byte second_byte : Nat) : rds_af_table_group :=
  if group.pvt_current_table_idx < 0 then group
  else
    { group with
      table := tablesModify group.table group.pvt_current_table_idx.toNat
        (fun t => decode_freq_table_nth_block t first_byte second_byte) }

/-- `decode_freq_group_block`. -/
def decode_freq_group_block (group : rds_af_table_group) (block : Nat) :
    rds_af_table_group :=
  let first_byte := (block >>> 8) &&& 0xFF  -- (uint8_t)(block >> 8)
  let second_byte := block &&& 0xFF
  if is_freq_code_count first_byte then
    decode_af_start_block group (freq_code_to_count first_byte) second_byte
  else
    decode_af_nth_block group first_byte second_byte

/- ---------------------------------------------------------------------
The RDS state record (include/rds_decoder.h, `struct rds_data`).
`RDS_DEV` is defined in the header, so the `stats` member exists.
The Radiotext member follows the shape used by `src/rds_decoder.c`
(two buffers `rt.a` / `rt.b` selected by `rt.decode_rt`).
--------------------------------------------------------------------- -/

/-- Bits of `enum rds_values`. -/
def RDS_AF : Nat := 0x00001
def RDS_CLOCK : Nat := 0x00002
def RDS_EWS : Nat := 0x00004
def RDS_FBT : Nat := 0x00008
def RDS_MC : Nat := 0x00010
def RDS_PIC : Nat := 0x00020
def RDS_PI_CODE : Nat := 0x00040
def RDS_PS : Nat := 0x00080
def RDS_PTY : Nat := 0x00100
def RDS_PTYN : Nat := 0x00200
def RDS_RT : Nat := 0x00400
def RDS_SLC : Nat := 0x00800
def RDS_TDC : Nat := 0x01000
def RDS_TA_CODE : Nat := 0x02000
def RDS_TP_CODE : Nat := 0x04000
def RDS_MS : Nat := 0x08000
def RDS_EON : Nat := 0x10000

/-- `enum rds_packet_counts` (RDS_DEV statistics indices). -/
def PKTCNT_AF : Nat := 0
def PKTCNT_CLOCK : Nat := 1
def PKTCNT_EON : Nat := 2
def PKTCNT_EWS : Nat := 3
def PKTCNT_FBT : Nat := 4
def PKTCNT_IH : Nat := 5
def PKTCNT_PAGING : Nat := 6
def PKTCNT_PIC : Nat := 7
def PKTCNT_PI_CODE : Nat := 8
def PKTCNT_PS : Nat := 9
def PKTCNT_PTY : Nat := 10
def PKTCNT_PTYN : Nat := 11
def PKTCNT_RT : Nat := 12
def PKTCNT_SLC : Nat := 13
def PKTCNT_TDC : Nat := 14
def PKTCNT_TMC : Nat := 15
def PKTCNT_TA_CODE : Nat := 16
def PKTCNT_TP_CODE : Nat := 17
def PKTCNT_MS : Nat := 18
def PKTCNT_NUM : Nat := 20

/-- `enum rds_variant_code` values (kept as raw naturals). -/
def SLC_VARIANT_PAGING : Nat := 0
def SLC_VARIANT_TMC_ID : Nat := 1
def SLC_VARIANT_PAGING_ID : Nat := 2
def SLC_VARIANT_LANG : Nat := 3
def SLC_VARIANT_NOT_ASSIGNED1 : Nat := 4
def SLC_VARIANT_NOT_ASSIGNED5 : Nat := 5
def SLC_VARIANT_BROADCAST : Nat := 6
def SLC_VARIANT_EWS : Nat := 7

def NUM_TDC : Nat := 32
def TDC_LEN : Nat := 32

/-- `struct rds_pic`. -/
structure rds_pic where
  day : Nat
  hour : Nat
  minute : Nat
deriving DecidableEq

/-- The `ps` member of `rds_data` (pvt struct flattened). -/
structure rds_ps where
  display : List Nat
  pvt_hi_prob : List Nat
  pvt_lo_prob : List Nat
  pvt_hi_prob_cnt : List Nat
deriving DecidableEq

/-- One Radiotext buffer (`struct rds_rt` as used by rds_decoder.c):
64-byte display plus the confidence-voting private arrays. -/
structure rds_rt where
  display : List Nat
  pvt_hi_prob : List Nat
  pvt_lo_prob : List Nat
  pvt_hi_prob_cnt : List Nat
deriving DecidableEq

/-- `enum rds_rt_text` (RT_A listed first; a zeroed field reads RT_A). -/
inductive rds_rt_text where
  | RT_A
  | RT_B
deriving DecidableEq

/-- The `rt` member of `rds_data` as used by rds_decoder.c: two buffers
selected by the A/B flag, and the flag of the previous group. -/
structure rds_rt_state where
  a : rds_rt
  b : rds_rt
  decode_rt : rds_rt_text
deriving DecidableEq

/-- The `clock` member of `rds_data`. -/
structure rds_clock where
  day_high : Bool
  day_low : Nat
  hour : Nat
  minute : Nat
  utc_offset : Int
deriving DecidableEq

/-- The payload union of the `slc` member, tagged by `variant_code`
(the C type is a union; only the variant named by `variant_code` is
ever read back). -/
inductive rds_slc_data where
  | paging (paging country_code : Nat)
  | tmc_id (v : Nat)
  | paging_id (v : Nat)
  | language_codes (v : Nat)
  | broadcasters (v : Nat)
  | ews_channel_id (v : Nat)
deriving DecidableEq

/-- The `slc` member of `rds_data`. -/
structure rds_slc where
  la : Bool
  variant_code : Nat
  data : rds_slc_data
deriving DecidableEq

/-- The `ptyn` member of `rds_data`. -/
structure rds_ptyn where
  display : List Nat
  last_ab : Bool
deriving DecidableEq

/-- The `eon.on` member of `rds_data`. -/
structure rds_eon_on where
  ps : List Nat
  pty : Nat
  tp_code : Bool
  ta_code : Bool
  af : rds_af_decode_table
  pi_code : Nat
  pic : rds_pic
deriving DecidableEq

/-- The `eon` member of `rds_data` (`maps[5]` is declared but never
written by the decoder; modelled as tn/on frequency pairs).  The C
field is named `on`; `on` is reserved notation here, hence `on_`. -/
structure rds_eon where
  on_ : rds_eon_on
  maps : List (rds_freq × rds_freq)
deriving DecidableEq

/-- One entry of the `oda[10]` member of `rds_data`. -/
structure rds_oda_entry where
  id : Nat
  gt : rds_group_type
  pkt_count : Nat
deriving DecidableEq

/-- The `tdc` member of `rds_data`: `data[NUM_TDC][TDC_LEN]`. -/
structure rds_tdc where
  data : List (List Nat)
  curr_channel : Nat
deriving DecidableEq

/-- The `ews` member of `rds_data`. -/
structure rds_ews where
  b : rds_block
  c : rds_block
  d : rds_block
deriving DecidableEq

/-- The `stats` member of `rds_data` (RDS_DEV): `counts[20]` are C
`int` counters, `groups[16]` pairs of `uint16_t` (A count, B count),
and two `uint16_t` totals. -/
structure rds_stats where
  counts : List Int
  groups : List (Nat × Nat)
  data_cnt : Nat
  blckb_errors : Nat
deriving DecidableEq

/-- `struct rds_data`. -/
structure rds_data where
  pi_code : Nat
  pic : rds_pic
  pty : Nat
  tp_code : Bool
  ta_code : Bool
  music : Bool
  ps : rds_ps
  rt : rds_rt_state
  clock : rds_clock
  slc : rds_slc
  ptyn : rds_ptyn
  af : rds_af_table_group
  eon : rds_eon
  oda_cnt : Nat
  oda : List rds_oda_entry
  tdc : rds_tdc
  ews : rds_ews
  stats : rds_stats
  valid_values : Nat
deriving DecidableEq

/-- A zero-initialised `struct rds_rt`. -/
def rtZero : rds_rt :=
  { display := List.replicate 64 0
    pvt_hi_prob := List.replicate 64 0
    pvt_lo_prob := List.replicate 64 0
    pvt_hi_prob_cnt := List.replicate 64 0 }

/-- A zero-initialised `struct rds_oda_entry` (the version character of
a zeroed group type is NUL, never equal to 'A' or 'B'). -/
def odaEntryZero : rds_oda_entry :=
  { id := 0, gt := { code := 0, version := Char.ofNat 0 }, pkt_count := 0 }

/-- `struct rds_data` after `memset(rds, 0, sizeof(struct rds_data))`.
All-zero bytes read back as 0 / false / the 0-valued enumerator; the
zeroed SLC payload union is represented by its first variant. -/
def rdsDataZero : rds_data :=
  { pi_code := 0
    pic := { day := 0, hour := 0, minute := 0 }
    pty := 0
    tp_code := false
    ta_code := false
    music := false
    ps :=
      { display := List.replicate 8 0
        pvt_hi_prob := List.replicate 8 0
        pvt_lo_prob := List.replicate 8 0
        pvt_hi_prob_cnt := List.replicate 8 0 }
    rt := { a := rtZero, b := rtZero, decode_rt := .RT_A }
    clock := { day_high := false, day_low := 0, hour := 0, minute := 0, utc_offset := 0 }
    slc := { la := false, variant_code := 0, data := .paging 0 0 }
    ptyn := { display := List.replicate 8 0, last_ab := false }
    af :=
      { pvt_current_table_idx := 0
        count := 0
        table := List.replicate 20 afDecodeTableZero }
    eon :=
      { on_ :=
          { ps := List.replicate 8 0
            pty := 0
            tp_code := false
            ta_code := false
            af := afDecodeTableZero
            pi_code := 0
            pic := { day := 0, hour := 0, minute := 0 } }
        maps := List.replicate 5 (freqZero, freqZero) }
    oda_cnt := 0
    oda := List.replicate 10 odaEntryZero
    tdc := { data := List.replicate 32 (List.replicate 32 0), curr_channel := 0 }
    ews := { b := { val := 0, errors := 0 }, c := { val := 0, errors := 0 },
             d := { val := 0, errors := 0 } }
    stats :=
      { counts := List.replicate 20 0
        groups := List.replicate 16 (0, 0)
        data_cnt := 0
        blckb_errors := 0 }
    valid_values := 0 }

/-- The decoder handle (`struct rds_decoder`): the PS algorithm switch
and whether each ODA callback is bound.  The callbacks themselves touch
no decoder state (the decode callback receives only const pointers), so
only their presence is modelled. -/
structure rds_decoder where
  advanced_ps_decoding : Bool
  oda_decode_cb : Bool
  oda_clear_cb : Bool
deriving DecidableEq

/- ---------------------------------------------------------------------
src/rds_decoder.c
--------------------------------------------------------------------- -/

def GT_CODE_MASK : Nat := 0b1111000000000000
def VERSION_CODE : Nat := 0b0000100000000000
def TP_CODE : Nat := 0b0000010000000000
def PTY_MASK : Nat := 0b0000001111100000
def RT_VALIDATE_LIMIT : Nat := 2
def PS_VALIDATE_LIMIT : Nat := 2

/-- Bump `stats.counts[i]` (a C `int` counter). -/
def statsBumpCount (rds : rds_data) (i : Nat) : rds_data :=
  { rds with stats :=
      { rds.stats with counts := rds.stats.counts.set i (rds.stats.counts.getD i 0 + 1) } }

/-- Bump `stats.groups[gt.code].a` or `.b` (uint16 counters). -/
def statsGroupBump (rds : rds_data) (gt : rds_group_type) : rds_data :=
  let g := rds.stats.groups.getD gt.code (0, 0)
  let g := if gt.version = 'A' then ((g.1 + 1) % 65536, g.2) else (g.1, (g.2 + 1) % 65536)
  { rds with stats := { rds.stats with groups := rds.stats.groups.set gt.code g } }

/-- `GroupTypesEqual`. -/
def GroupTypesEqual (gta gtb : rds_group_type) : Bool :=
  decide (gta.code = gtb.code ∧ gta.version = gtb.version)

/-- `IsGroupTypeUsedByODA`: scans all `ARRAY_SIZE(rds->oda)` = 10
entries, active or not. -/
def IsGroupTypeUsedByODA (rds : rds_data) (gt : rds_group_type) : Bool :=
  rds.oda.any (fun e => GroupTypesEqual e.gt gt)

/-- `IsValidODAAppId`. -/
def IsValidODAAppId (app_id : Nat) : Bool :=
  app_id != 0

/-- `decode_pty`. -/
def decode_pty (rds : rds_data) (block : rds_block) : rds_data :=
  let rds := { rds with
    tp_code := block.val &&& TP_CODE != 0
    pty := (block.val &&& PTY_MASK) >>> 5 }
  let rds := { rds with valid_values := rds.valid_values ||| RDS_TP_CODE }
  let rds := if rds.tp_code then statsBumpCount rds PKTCNT_TP_CODE else rds
  let rds := { rds with valid_values := rds.valid_values ||| RDS_PTY }
  statsBumpCount rds PKTCNT_PTY

/-- `decode_ta` (TA_MASK = 0b10000). -/
def decode_ta (rds : rds_data) (block : rds_block) : rds_data :=
  let rds := { rds with ta_code := block.val &&& 0b0000000000010000 != 0 }
  let rds := { rds with valid_values := rds.valid_values ||| RDS_TA_CODE }
  statsBumpCount rds PKTCNT_TA_CODE

/-- `decode_ms` (MS_MASK = 0b1000). -/
def decode_ms (rds : rds_data) (block : rds_block) : rds_data :=
  let rds := { rds with music := block.val &&& 0b0000000000001000 != 0 }
  let rds := { rds with valid_values := rds.valid_values ||| RDS_MS }
  statsBumpCount rds PKTCNT_MS

/-- The per-character loop of `update_rt_simple`, with the 0x0D
end-of-message break wiping the rest of the display. -/
def update_rt_simple_loop (rt : rds_rt) (blocks : rds_blocks) (count addr : Nat)
    (chars : List Nat) (i : Nat) : rds_rt :=
  if _h : i < count then
    let errCount := if i < 2 ∧ count > 2 then blocks.c.errors else blocks.d.errors
    let blerMax := if i < 2 ∧ count > 2 then BLERC_MAX else BLERD_MAX
    if errCount ≤ blerMax then
      let ch := chars.getD i 0
      let rt := { rt with display := rt.display.set (addr + i) ch }
      if ch = 0x0d then
        { rt with display := rt.display.take (addr + i + 1) ++
            List.replicate (rt.display.length - (addr + i + 1)) 0 }
      else update_rt_simple_loop rt blocks count addr chars (i + 1)
    else update_rt_simple_loop rt blocks count addr chars (i + 1)
  else rt
termination_by count - i

/-- The trailing loop of `update_rt_simple`: any null character before
`addr` becomes a space. -/
def fill_space_before : List Nat → Nat → List Nat
  | [], _ => []
  | x :: xs, 0 => x :: xs
  | x :: xs, n + 1 => (if x = 0 then 0x20 else x) :: fill_space_before xs n

/-- `update_rt_simple`. -/
def update_rt_simple (rt : rds_rt) (blocks : rds_blocks) (count addr : Nat)
    (chars : List Nat) : rds_rt :=
  let rt := update_rt_simple_loop rt blocks count addr chars 0
  { rt with display := fill_space_before rt.display addr }

/-- `bump_rt_validation_count`.  The two increment loops in the C
function write only into arrays that the closing memsets immediately
clear, so the observable effect is clearing the whole confidence
state. -/
def bump_rt_validation_count (rt : rds_rt) : rds_rt :=
  { rt with
    pvt_hi_prob_cnt := List.replicate rt.pvt_hi_prob_cnt.length 0
    pvt_hi_prob := List.replicate rt.pvt_hi_prob.length 0
    pvt_lo_prob := List.replicate rt.pvt_lo_prob.length 0 }

/-- The per-character loop of `update_rt_advance`, threading the
`text_changing` flag. -/
def update_rt_advance_loop (rt : rds_rt) (blocks : rds_blocks) (count addr : Nat)
    (byte : List Nat) (i : Nat) (text_changing : Bool) : rds_rt × Bool :=
  if _h : i < count then
    let errCount := if i < 2 ∧ count > 2 then blocks.c.errors else blocks.d.errors
    let blerMax := if i < 2 ∧ count > 2 then BLERC_MAX else BLERD_MAX
    if errCount ≤ blerMax then
      let bi := byte.getD i 0
      let bi := if bi = 0 then 0x20 else bi  -- translate nulls to spaces
      let p := addr + i
      let (rt, text_changing) :=
        if rt.pvt_hi_prob.getD p 0 = bi then
          if rt.pvt_hi_prob_cnt.getD p 0 < RT_VALIDATE_LIMIT then
            ({ rt with pvt_hi_prob_cnt :=
                rt.pvt_hi_prob_cnt.set p (rt.pvt_hi_prob_cnt.getD p 0 + 1) }, text_changing)
          else
            ({ rt with pvt_hi_prob_cnt := rt.pvt_hi_prob_cnt.set p RT_VALIDATE_LIMIT
                       pvt_lo_prob := rt.pvt_lo_prob.set p bi }, text_changing)
        else if rt.pvt_lo_prob.getD p 0 = bi then
          let (rt, text_changing) :=
            if rt.pvt_hi_prob_cnt.getD p 0 ≥ RT_VALIDATE_LIMIT then
              ({ rt with pvt_hi_prob_cnt :=
                  rt.pvt_hi_prob_cnt.set p (RT_VALIDATE_LIMIT + 1) }, true)
            else
              ({ rt with pvt_hi_prob_cnt :=
                  rt.pvt_hi_prob_cnt.set p RT_VALIDATE_LIMIT }, text_changing)
          ({ rt with pvt_lo_prob := rt.pvt_lo_prob.set p (rt.pvt_hi_prob.getD p 0)
                     pvt_hi_prob := rt.pvt_hi_prob.set p bi }, text_changing)
        else if rt.pvt_hi_prob_cnt.getD p 0 = 0 then
          ({ rt with pvt_hi_prob := rt.pvt_hi_prob.set p bi
                     pvt_hi_prob_cnt := rt.pvt_hi_prob_cnt.set p 1 }, text_changing)
        else
          ({ rt with pvt_lo_prob := rt.pvt_lo_prob.set p bi }, text_changing)
      update_rt_advance_loop rt blocks count addr byte (i + 1) text_changing
    else update_rt_advance_loop rt blocks count addr byte (i + 1) text_changing
  else (rt, text_changing)
termination_by count - i

/-- `update_rt_advance`. -/
def update_rt_advance (rt : rds_rt) (blocks : rds_blocks) (count addr : Nat)
    (byte : List Nat) : rds_rt :=
  let (rt, text_changing) := update_rt_advance_loop rt blocks count addr byte 0 false
  if text_changing then
    { rt with pvt_hi_prob_cnt := rt.pvt_hi_prob_cnt.map (fun c => if c > 1 then c - 1 else c) }
  else rt

/-- `update_ps_advanced`. -/
def update_ps_advanced (rds : rds_data) (char_idx byte : Nat) : rds_data :=
  if char_idx ≥ 8 then rds  -- ARRAY_SIZE(rds->ps.display)
  else
    let ps := rds.ps
    let pr :=
      if ps.pvt_hi_prob.getD char_idx 0 = byte then
        if ps.pvt_hi_prob_cnt.getD char_idx 0 < PS_VALIDATE_LIMIT then
          ({ ps with pvt_hi_prob_cnt :=
              ps.pvt_hi_prob_cnt.set char_idx (ps.pvt_hi_prob_cnt.getD char_idx 0 + 1) }, false)
        else
          ({ ps with pvt_hi_prob_cnt := ps.pvt_hi_prob_cnt.set char_idx PS_VALIDATE_LIMIT
                     pvt_lo_prob := ps.pvt_lo_prob.set char_idx byte }, false)
      else if ps.pvt_lo_prob.getD char_idx 0 = byte then
        let inner :=
          if ps.pvt_hi_prob_cnt.getD char_idx 0 ≥ PS_VALIDATE_LIMIT then
            ({ ps with pvt_hi_prob_cnt :=
                ps.pvt_hi_prob_cnt.set char_idx (PS_VALIDATE_LIMIT + 1) }, true)
          else
            ({ ps with pvt_hi_prob_cnt :=
                ps.pvt_hi_prob_cnt.set char_idx PS_VALIDATE_LIMIT }, false)
        ({ inner.1 with
            pvt_lo_prob := inner.1.pvt_lo_prob.set char_idx (inner.1.pvt_hi_prob.getD char_idx 0)
            pvt_hi_prob := inner.1.pvt_hi_prob.set char_idx byte }, inner.2)
      else if ps.pvt_hi_prob_cnt.getD char_idx 0 = 0 then
        ({ ps with pvt_hi_prob := ps.pvt_hi_prob.set char_idx byte
                   pvt_hi_prob_cnt := ps.pvt_hi_prob_cnt.set char_idx 1 }, false)
      else
        ({ ps with pvt_lo_prob := ps.pvt_lo_prob.set char_idx byte }, false)
    let ps := pr.1
    let in_transition := pr.2
    let ps :=
      if in_transition then
        { ps with pvt_hi_prob_cnt :=
            ps.pvt_hi_prob_cnt.map (fun c => if c > 1 then c - 1 else c) }
      else ps
    let complete := ps.pvt_hi_prob_cnt.all (fun c => decide (c ≥ PS_VALIDATE_LIMIT))
    let rds := { rds with ps := ps }
    if complete then
      { rds with valid_values := rds.valid_values ||| RDS_PS
                 ps := { ps with display := ps.pvt_hi_prob } }
    else rds

/-- `update_ps_simple`. -/
def update_ps_simple (rds : rds_data) (char_idx current_ps_byte : Nat) : rds_data :=
  if char_idx ≥ 8 then rds  -- ARRAY_SIZE(rds->ps.display)
  else
    { rds with
      ps := { rds.ps with display := rds.ps.display.set char_idx current_ps_byte }
      valid_values := rds.valid_values ||| RDS_PS }

/-- `decode_alt_freq`. -/
def decode_alt_freq (rds : rds_data) (blocks : rds_blocks) : rds_data :=
  if blocks.c.errors ≠ BLER_NONE then rds
  else
    let rds := { rds with valid_values := rds.valid_values ||| RDS_AF }
    let rds := statsBumpCount rds PKTCNT_AF
    { rds with af := decode_freq_group_block rds.af blocks.c.val }

/-- `decode_group_type_0`.  Byte arguments passed to the `uint8_t` PS
parameters keep their implicit truncation. -/
def decode_group_type_0 (decoder : rds_decoder) (rds : rds_data)
    (gt : rds_group_type) (blocks : rds_blocks) : rds_data :=
  let rds := if gt.version = 'A' then decode_alt_freq rds blocks else rds
  if blocks.d.errors > BLERD_MAX then rds
  else
    let rds := decode_ta rds blocks.b
    let rds := decode_ms rds blocks.b
    let pair_idx := (blocks.b.val &&& 0x03) * 2
    let rds :=
      if decoder.advanced_ps_decoding then
        let rds := update_ps_advanced rds (pair_idx + 0) ((blocks.d.val >>> 8) &&& 0xFF)
        update_ps_advanced rds (pair_idx + 1) (blocks.d.val &&& 0xFF)
      else
        let rds := update_ps_simple rds (pair_idx + 0) ((blocks.d.val >>> 8) &&& 0xFF)
        update_ps_simple rds (pair_idx + 1) (blocks.d.val &&& 0xFF)
    statsBumpCount rds PKTCNT_PS

/-- `decode_slow_labelling_codes`. -/
def decode_slow_labelling_codes (rds : rds_data) (blocks : rds_blocks) : rds_data :=
  if blocks.c.errors > BLERC_MAX then rds
  else
    let rds := { rds with valid_values := rds.valid_values ||| RDS_SLC }
    let rds := statsBumpCount rds PKTCNT_SLC
    let rds := { rds with slc := { rds.slc with
      la := blocks.c.val &&& 0b1000000000000000 != 0
      variant_code := (blocks.c.val &&& 0b0111000000000000) >>> 12 } }
    let vc := rds.slc.variant_code
    let data :=
      if vc = SLC_VARIANT_PAGING then
        rds_slc_data.paging ((blocks.c.val &&& 0b0000111100000000) >>> 8)
          (blocks.c.val &&& 0b0000000011111111)
      else if vc = SLC_VARIANT_TMC_ID then .tmc_id (blocks.c.val &&& 0b0000111111111111)
      else if vc = SLC_VARIANT_PAGING_ID then .paging_id (blocks.c.val &&& 0b0000111111111111)
      else if vc = SLC_VARIANT_LANG then .language_codes (blocks.c.val &&& 0b0000111111111111)
      else if vc = SLC_VARIANT_NOT_ASSIGNED1 ∨ vc = SLC_VARIANT_NOT_ASSIGNED5 then .tmc_id 0
      else if vc = SLC_VARIANT_BROADCAST then .broadcasters (blocks.c.val &&& 0b0000111111111111)
      else .ews_channel_id (blocks.c.val &&& 0b0000111111111111)  -- SLC_VARIANT_EWS
    { rds with slc := { rds.slc with data := data } }

/-- `decode_program_item_number_code`. -/
def decode_program_item_number_code (raw_value : Nat) : rds_pic :=
  let pic : rds_pic := { day := 0, hour := 0, minute := 0 }
  let pic := { pic with day := raw_value >>> 11 }
  if pic.day ≠ 0 then
    { pic with
      hour := (raw_value &&& 0b0000011111000000) >>> 6
      minute := raw_value &&& 0b0000000000111111 }
  else pic

/-- `decode_group_type_1`. -/
def decode_group_type_1 (rds : rds_data) (gt : rds_group_type)
    (blocks : rds_blocks) : rds_data :=
  let rds := if gt.version = 'A' then decode_slow_labelling_codes rds blocks else rds
  if blocks.d.errors ≤ BLERD_MAX then
    let rds := { rds with pic := decode_program_item_number_code blocks.d.val }
    let rds := { rds with valid_values := rds.valid_values ||| RDS_PIC }
    statsBumpCount rds PKTCNT_PIC
  else rds

/-- `decode_group_type_2`.  The two C early returns (block errors) are
modelled with an `Option` around the selected RT buffer. -/
def decode_group_type_2 (rds : rds_data) (gt : rds_group_type)
    (blocks : rds_blocks) : rds_data :=
  let decode_rt : rds_rt_text :=
    if (blocks.b.val &&& 0x0010) >>> 4 != 0 then .RT_A else .RT_B
  let rt := if decode_rt = .RT_A then rds.rt.a else rds.rt.b
  let rtOpt : Option rds_rt :=
    if gt.version = 'A' then
      if blocks.c.errors > BLERC_MAX ∨ blocks.d.errors > BLERD_MAX then none
      else
        let rtchars := [(blocks.c.val >>> 8) &&& 0xFF, blocks.c.val &&& 0xFF,
                        (blocks.d.val >>> 8) &&& 0xFF, blocks.d.val &&& 0xFF]
        let addr := (blocks.b.val &&& 0xf) * 4
        let rt := update_rt_simple rt blocks 4 addr rtchars
        let rt := if rds.rt.decode_rt ≠ decode_rt then bump_rt_validation_count rt else rt
        some (update_rt_advance rt blocks 4 addr rtchars)
    else
      if blocks.d.errors > BLERD_MAX then none
      else
        let rtchars := [(blocks.d.val >>> 8) &&& 0xFF, blocks.d.val &&& 0xFF, 0, 0]
        let addr := (blocks.b.val &&& 0xf) * 2
        -- The last 32 bytes are unused in this format.
        let rt := { rt with
          display := rt.display.set 32 0x0d
          pvt_hi_prob := rt.pvt_hi_prob.set 32 0x0d
          pvt_lo_prob := rt.pvt_lo_prob.set 32 0x0d
          pvt_hi_prob_cnt := rt.pvt_hi_prob_cnt.set 32 RT_VALIDATE_LIMIT }
        let rt := update_rt_simple rt blocks 2 addr rtchars
        let rt := if rds.rt.decode_rt ≠ decode_rt then bump_rt_validation_count rt else rt
        some (update_rt_advance rt blocks 2 addr rtchars)
  match rtOpt with
  | none => rds
  | some rt =>
    let rds :=
      if decode_rt = .RT_A then { rds with rt := { rds.rt with a := rt } }
      else { rds with rt := { rds.rt with b := rt } }
    let rds := { rds with rt := { rds.rt with decode_rt := decode_rt } }
    let rds := { rds with valid_values := rds.valid_values ||| RDS_RT }
    statsBumpCount rds PKTCNT_RT

/-- Index of the first ODA entry (among the `oda_cnt` active ones)
whose group type matches. -/
def odaFindGtIdx (oda : List rds_oda_entry) (oda_cnt : Nat)
    (gt : rds_group_type) : Option Nat :=
  (List.range oda_cnt).find? (fun i => GroupTypesEqual (oda.getD i odaEntryZero).gt gt)

/-- `decode_oda`: bump the matching entry's packet counter.  The decode
callback receives only const pointers, so it cannot change the state. -/
def decode_oda (rds : rds_data) (gt : rds_group_type) : rds_data :=
  match odaFindGtIdx rds.oda rds.oda_cnt gt with
  | none => rds
  | some idx =>
    let e := rds.oda.getD idx odaEntryZero
    { rds with oda := rds.oda.set idx { e with pkt_count := (e.pkt_count + 1) % 65536 } }

/-- Index of the first active ODA entry with the given application id
(the scan loop of `decode_group_type_3`). -/
def odaFindIdIdx (oda : List rds_oda_entry) (oda_cnt app_id : Nat) : Option Nat :=
  (List.range oda_cnt).find? (fun i => (oda.getD i odaEntryZero).id == app_id)

/-- `decode_group_type_3`. -/
def decode_group_type_3 (rds : rds_data) (gt : rds_group_type)
    (blocks : rds_blocks) : rds_data :=
  if gt.version = 'A' then
    -- Entire block is app id (AID) so we want no errors.
    if blocks.d.errors = BLER_NONE then
      let app_id := blocks.d.val
      if !(IsValidODAAppId app_id) then rds
      else
        match odaFindIdIdx rds.oda rds.oda_cnt app_id with
        | some idx =>
          -- Reset it - just in case it changes.
          let e := rds.oda.getD idx odaEntryZero
          let e := { e with gt :=
            { code := (blocks.b.val &&& 0b11110) >>> 1
              version := if blocks.b.val &&& 0x1 != 0 then 'B' else 'A' } }
          { rds with oda := rds.oda.set idx e }
        | none =>
          if rds.oda_cnt < 10 then  -- idx == oda_cnt ∧ idx < ARRAY_SIZE(oda)
            let e := rds.oda.getD rds.oda_cnt odaEntryZero
            let e := { e with
              id := app_id
              gt := { code := (blocks.b.val &&& 0b11110) >>> 1
                      version := if blocks.b.val &&& 0x1 != 0 then 'B' else 'A' } }
            { rds with oda := rds.oda.set rds.oda_cnt e, oda_cnt := rds.oda_cnt + 1 }
          else rds
    else rds
  else decode_oda rds gt

/-- `update_clock`. -/
def update_clock (rds : rds_data) (blocks : rds_blocks) : rds_data :=
  if blocks.b.errors > BLERB_MAX then rds
  else if blocks.c.errors > BLERC_MAX then rds
  else if blocks.d.errors > BLERD_MAX then rds
  else if blocks.b.errors + blocks.c.errors + blocks.d.errors > BLERB_MAX then rds
  else
    let b := blocks.b.val
    let c := blocks.c.val
    let d := blocks.d.val
    let rds := { rds with valid_values := rds.valid_values ||| RDS_CLOCK }
    let rds := statsBumpCount rds PKTCNT_CLOCK
    let utc : Int := (d &&& 0b0000000000011111 : Nat)
    { rds with clock :=
        { day_high := (b &&& 0b0000000000000011) >>> 1 != 0
          day_low := ((b &&& 0x1) <<< 15) ||| ((c &&& 0b1111111111111110) >>> 1)
          hour := ((c &&& 0x1) <<< 4) ||| ((d &&& 0b1111000000000000) >>> 12)
          minute := (d &&& 0b0000111111000000) >>> 6
          utc_offset := if d &&& 0b0000000000100000 != 0 then -utc else utc } }

/-- `decode_group_type_4`. -/
def decode_group_type_4 (rds : rds_data) (gt : rds_group_type)
    (blocks : rds_blocks) : rds_data :=
  if gt.version = 'A' then update_clock rds blocks
  else decode_oda rds gt

/-- `decode_tdc_block`. -/
def decode_tdc_block (rds : rds_data) (block : rds_block) : rds_data :=
  let channel := rds.tdc.curr_channel
  if channel ≥ NUM_TDC then rds
  else
    let rds := { rds with valid_values := rds.valid_values ||| RDS_TDC }
    let rds := statsBumpCount rds PKTCNT_TDC
    let row := rds.tdc.data.getD channel (List.replicate 32 0)
    -- memmove(&data[channel][0], &data[channel][2], TDC_LEN - 2)
    let row := row.drop 2 ++ row.drop (TDC_LEN - 2)
    let row := row.set (TDC_LEN - 2) ((block.val >>> 8) &&& 0xFF)
    let row := row.set (TDC_LEN - 1) (block.val &&& 0xFF)
    { rds with tdc := { rds.tdc with data := rds.tdc.data.set channel row } }

/-- `decode_group_type_5`.  `curr_channel` is `uint8_t`; the C mask is
the (mistyped) hex literal 0x11111, truncated by the assignment. -/
def decode_group_type_5 (rds : rds_data) (gt : rds_group_type)
    (blocks : rds_blocks) : rds_data :=
  if IsGroupTypeUsedByODA rds gt then decode_oda rds gt
  else if gt.version = 'A' then
    let rds := { rds with tdc :=
        { rds.tdc with curr_channel := (blocks.b.val &&& 0x11111) &&& 0xFF } }
    let rds := decode_tdc_block rds blocks.c
    decode_tdc_block rds blocks.d
  else decode_tdc_block rds blocks.d

/-- `decode_in_house_data` (RDS_DEV build: counts only). -/
def decode_in_house_data (rds : rds_data) : rds_data :=
  statsBumpCount rds PKTCNT_IH

/-- `decode_group_type_6`. -/
def decode_group_type_6 (rds : rds_data) (gt : rds_group_type) : rds_data :=
  if IsGroupTypeUsedByODA rds gt then decode_oda rds gt
  else decode_in_house_data rds

/-- `decode_radio_paging` (RDS_DEV build: counts only). -/
def decode_radio_paging (rds : rds_data) : rds_data :=
  statsBumpCount rds PKTCNT_PAGING

/-- `decode_group_type_7`. -/
def decode_group_type_7 (rds : rds_data) (gt : rds_group_type) : rds_data :=
  if gt.version = 'A' then
    if IsGroupTypeUsedByODA rds gt then decode_oda rds gt
    else decode_radio_paging rds
  else decode_oda rds gt

/-- `decode_tmc` (RDS_DEV build: counts only). -/
def decode_tmc (rds : rds_data) : rds_data :=
  statsBumpCount rds PKTCNT_TMC

/-- `decode_group_type_8`. -/
def decode_group_type_8 (rds : rds_data) (gt : rds_group_type) : rds_data :=
  if IsGroupTypeUsedByODA rds gt then decode_oda rds gt
  else if gt.version = 'A' then decode_tmc rds
  else rds

/-- `decode_ews`: stores block B (low five bits), C and D verbatim,
with their error classes; no BLER check. -/
def decode_ews (rds : rds_data) (blocks : rds_blocks) : rds_data :=
  let rds := statsBumpCount rds PKTCNT_EWS
  let rds := { rds with valid_values := rds.valid_values ||| RDS_EWS }
  let rds := { rds with ews := { rds.ews with b := blocks.b } }
  let rds := { rds with ews := { rds.ews with b :=
      { rds.ews.b with val := rds.ews.b.val &&& 0b11111 } } }
  let rds := { rds with ews := { rds.ews with c := blocks.c } }
  { rds with ews := { rds.ews with d := blocks.d } }

/-- `decode_group_type_9`. -/
def decode_group_type_9 (rds : rds_data) (gt : rds_group_type)
    (blocks : rds_blocks) : rds_data :=
  if IsGroupTypeUsedByODA rds gt then decode_oda rds gt
  else if gt.version = 'A' then decode_ews rds blocks
  else rds

/-- `update_ptyn`. -/
def update_ptyn (rds : rds_data) (char_idx ch : Nat) : rds_data :=
  if char_idx ≥ 8 then rds  -- ARRAY_SIZE(rds->ptyn.display)
  else { rds with ptyn := { rds.ptyn with display := rds.ptyn.display.set char_idx ch } }

/-- `decode_ptyn`. -/
def decode_ptyn (rds : rds_data) (blocks : rds_blocks) : rds_data :=
  let rds := { rds with valid_values := rds.valid_values ||| RDS_PTYN }
  let rds := statsBumpCount rds PKTCNT_PTYN
  let ab_val := blocks.b.val &&& 0b10000 != 0
  let rds :=
    if rds.ptyn.last_ab ≠ ab_val then
      { rds with ptyn := { display := List.replicate 8 0, last_ab := ab_val } }
    else rds
  let base := if blocks.b.val &&& 0b00001 != 0 then 4 else 0
  let rds :=
    if blocks.c.errors ≤ BLERC_MAX then
      let rds := update_ptyn rds (base + 0) ((blocks.c.val >>> 8) &&& 0xFF)
      update_ptyn rds (base + 1) (blocks.c.val &&& 0xFF)
    else rds
  if blocks.d.errors ≤ BLERD_MAX then
    let rds := update_ptyn rds (base + 2) ((blocks.d.val >>> 8) &&& 0xFF)
    update_ptyn rds (base + 3) (blocks.d.val &&& 0xFF)
  else rds

/-- `decode_group_type_10`. -/
def decode_group_type_10 (rds : rds_data) (gt : rds_group_type)
    (blocks : rds_blocks) : rds_data :=
  if gt.version = 'A' then decode_ptyn rds blocks
  else decode_oda rds gt

/-- `decode_eon_block_a` (14A variants; variant code is the low four
bits of block B).  Note the C PTY/TA branch reads `c.val > 11`, a
comparison producing 0 or 1. -/
def decode_eon_block_a (rds : rds_data) (blocks : rds_blocks) : rds_data :=
  let vc := blocks.b.val &&& 0xf
  if vc = 0 then  -- EON_VC_PS1
    { rds with eon := { rds.eon with on_ := { rds.eon.on_ with
        ps := (rds.eon.on_.ps.set 0 ((blocks.c.val >>> 8) &&& 0xFF)).set 1
          (blocks.c.val &&& 0xFF) } } }
  else if vc = 1 then  -- EON_VC_PS2
    { rds with eon := { rds.eon with on_ := { rds.eon.on_ with
        ps := (rds.eon.on_.ps.set 2 ((blocks.c.val >>> 8) &&& 0xFF)).set 3
          (blocks.c.val &&& 0xFF) } } }
  else if vc = 2 then  -- EON_VC_PS3
    { rds with eon := { rds.eon with on_ := { rds.eon.on_ with
        ps := (rds.eon.on_.ps.set 4 ((blocks.c.val >>> 8) &&& 0xFF)).set 5
          (blocks.c.val &&& 0xFF) } } }
  else if vc = 3 then  -- EON_VC_PS4
    { rds with eon := { rds.eon with on_ := { rds.eon.on_ with
        ps := (rds.eon.on_.ps.set 6 ((blocks.c.val >>> 8) &&& 0xFF)).set 7
          (blocks.c.val &&& 0xFF) } } }
  else if vc = 4 then  -- EON_VC_AF, see RBDS 3.2.1.6.6
    let first_byte := (blocks.c.val >>> 8) &&& 0xFF
    if is_freq_code_count first_byte then
      let af := { rds.eon.on_.af with pvt_band := rds_band.UHF }
      let af := decode_freq_table_start_block af (freq_code_to_count first_byte)
        (blocks.c.val &&& 0xFF)
      { rds with eon := { rds.eon with on_ := { rds.eon.on_ with af := af } } }
    else
      { rds with eon := { rds.eon with on_ := { rds.eon.on_ with
          af := decode_freq_table_nth_block rds.eon.on_.af first_byte
            (blocks.c.val &&& 0xFF) } } }
  else if vc = 13 then  -- EON_VC_PTY_TA
    { rds with eon := { rds.eon with on_ := { rds.eon.on_ with
        pty := if blocks.c.val > 11 then 1 else 0
        ta_code := blocks.c.val &&& 0x1 != 0 } } }
  else rds  -- EON_VC_FREQ1..5, UNALLOC, LINKAGE, PIN, RESERVED: empty cases

/-- `decode_group_type_14`. -/
def decode_group_type_14 (rds : rds_data) (gt : rds_group_type)
    (blocks : rds_blocks) : rds_data :=
  let rds := statsBumpCount rds PKTCNT_EON
  let rds := { rds with valid_values := rds.valid_values ||| RDS_EON }
  if gt.version = 'A' then decode_eon_block_a rds blocks
  else
    let rds :=
      if blocks.d.errors ≤ BLERD_MAX then
        { rds with eon := { rds.eon with on_ := { rds.eon.on_ with pi_code := blocks.d.val } } }
      else rds
    { rds with eon := { rds.eon with on_ := { rds.eon.on_ with
        tp_code := blocks.b.val &&& 0b1000 != 0
        ta_code := blocks.b.val &&& 0b0100 != 0 } } }

/-- `decode_fast_basic_tuning` (RDS_DEV build: counts; the block-D
check guards nothing further). -/
def decode_fast_basic_tuning (rds : rds_data) : rds_data :=
  statsBumpCount rds PKTCNT_FBT

/-- `decode_group_type_15`. -/
def decode_group_type_15 (rds : rds_data) (gt : rds_group_type)
    (blocks : rds_blocks) : rds_data :=
  let rds := if gt.version = 'A' then rds else decode_fast_basic_tuning rds
  decode_ta rds blocks.b

/-- The block-A PI latch at the top of `rds_decoder_decode`. -/
def decode_latch_pi_a (rds : rds_data) (blocks : rds_blocks) : rds_data :=
  if blocks.a.errors ≤ BLERA_MAX then
    let rds := { rds with pi_code := blocks.a.val }
    let rds := { rds with valid_values := rds.valid_values ||| RDS_PI_CODE }
    statsBumpCount rds PKTCNT_PI_CODE
  else rds

/-- The version-B block-C PI latch of `rds_decoder_decode`. -/
def decode_latch_pi_c (rds : rds_data) (gt : rds_group_type)
    (blocks : rds_blocks) : rds_data :=
  if gt.version = 'B' ∧ blocks.c.errors ≤ BLERC_MAX ∧
      blocks.c.errors < blocks.b.errors then
    let rds := { rds with pi_code := blocks.c.val }
    let rds := { rds with valid_values := rds.valid_values ||| RDS_PI_CODE }
    statsBumpCount rds PKTCNT_PI_CODE
  else rds

/-- The group-code switch of `rds_decoder_decode`. -/
def decode_dispatch (decoder : rds_decoder) (rds : rds_data)
    (gt : rds_group_type) (blocks : rds_blocks) : rds_data :=
  if gt.code = 0 then decode_group_type_0 decoder rds gt blocks
  else if gt.code = 1 then decode_group_type_1 rds gt blocks
  else if gt.code = 2 then decode_group_type_2 rds gt blocks
  else if gt.code = 3 then decode_group_type_3 rds gt blocks
  else if gt.code = 4 then decode_group_type_4 rds gt blocks
  else if gt.code = 5 then decode_group_type_5 rds gt blocks
  else if gt.code = 6 then decode_group_type_6 rds gt
  else if gt.code = 7 then decode_group_type_7 rds gt
  else if gt.code = 8 then decode_group_type_8 rds gt
  else if gt.code = 9 then decode_group_type_9 rds gt blocks
  else if gt.code = 10 then decode_group_type_10 rds gt blocks
  else if gt.code = 11 then decode_oda rds gt
  else if gt.code = 12 then decode_oda rds gt
  else if gt.code = 13 then decode_oda rds gt
  else if gt.code = 14 then decode_group_type_14 rds gt blocks
  else if gt.code = 15 then decode_group_type_15 rds gt blocks
  else rds

/-- `rds_decoder_decode`: the group dispatcher (decomposed into the
data-count bump, the block-A PI latch, the block-B gate, the block-C
PI latch, the group/PTY bookkeeping and the group-code switch, in the
order of the C function). -/
def rds_decoder_decode (decoder : rds_decoder) (rds : rds_data)
    (blocks : rds_blocks) : rds_data :=
  let rds := { rds with stats := { rds.stats with data_cnt := (rds.stats.data_cnt + 1) % 65536 } }
  let rds := decode_latch_pi_a rds blocks
  if blocks.b.errors > BLERB_MAX then
    { rds with stats :=
        { rds.stats with blckb_errors := (rds.stats.blckb_errors + 1) % 65536 } }
  else
    let gt : rds_group_type :=
      { code := (blocks.b.val &&& GT_CODE_MASK) >>> 12
        version := if blocks.b.val &&& VERSION_CODE != 0 then 'B' else 'A' }
    let rds := decode_latch_pi_c rds gt blocks
    let rds := statsGroupBump rds gt
    let rds := decode_pty rds blocks.b
    decode_dispatch decoder rds gt blocks

/-- The observable outcome of `rds_decoder_reset`: the final state, the
number of clear-callback invocations, and the state visible to the
callback when it ran. -/
structure rds_reset_result where
  rds : rds_data
  clear_cb_calls : Nat
  rds_at_clear_cb : Option rds_data
deriving DecidableEq

/-- `rds_decoder_reset`: zero the record, set the AF current-table
index to -1, then fire the clear callback if one is bound. -/
def rds_decoder_reset (decoder : rds_decoder) (_rds : rds_data) : rds_reset_result :=
  let rds := rdsDataZero  -- memset(decoder->rds, 0, sizeof(struct rds_data))
  let rds := { rds with af := { rds.af with pvt_current_table_idx := -1 } }
  if decoder.oda_clear_cb then
    { rds := rds, clear_cb_calls := 1, rds_at_clear_cb := some rds }
  else
    { rds := rds, clear_cb_calls := 0, rds_at_clear_cb := none }

/- ---------------------------------------------------------------------
Predicates and concrete inputs used by the verification theorems.
--------------------------------------------------------------------- -/

/-- No duplicate frequencies (in the `freq_eq` sense) among the active
entries of an AF table. -/
def af_table_nodup (tb : rds_af_table) : Prop :=
  (tb.entry.take tb.count).Pairwise (fun a b => freq_eq a b = false)

/-- A well-formed AF table: count within the 25-entry array, declared
array length, no duplicates. -/
def af_table_wf (tb : rds_af_table) : Prop :=
  tb.count ≤ 25 ∧ tb.entry.length = 25 ∧ af_table_nodup tb

/-- A single decode step may only grow an AF table, within bounds. -/
def af_table_step (tb tb' : rds_af_table) : Prop :=
  tb.count ≤ tb'.count ∧ tb'.entry.length = tb.entry.length ∧
  (tb.count ≤ 25 → tb'.count ≤ 25) ∧ (af_table_wf tb → af_table_wf tb')

/-- A well-formed AF table group: count within the 20-table array,
declared array length, all tables well formed. -/
def af_group_wf (g : rds_af_table_group) : Prop :=
  g.count ≤ 20 ∧ g.table.length = 20 ∧ ∀ t ∈ g.table, af_table_wf t.table

/-- A single decode step may only grow an AF table group, within
bounds, and may only grow each slot's table. -/
def af_group_step (g g' : rds_af_table_group) : Prop :=
  g.count ≤ g'.count ∧ g'.table.length = g.table.length ∧
  (g.count ≤ 20 → g'.count ≤ 20) ∧
  (∀ i, af_table_step ((g.table.getD i afDecodeTableZero).table)
    ((g'.table.getD i afDecodeTableZero).table)) ∧
  (af_group_wf g → af_group_wf g')

/-- A decoder configuration with simple PS decoding and no callbacks. -/
def cfg0 : rds_decoder :=
  { advanced_ps_decoding := false, oda_decode_cb := false, oda_clear_cb := false }

/-- A group whose block B is over threshold while block A is clean. -/
def c1_group : rds_blocks :=
  { a := { val := 0x1234, errors := 0 }, b := { val := 0, errors := 2 },
    c := { val := 0, errors := 0 }, d := { val := 0, errors := 0 } }

/-- A 9A group whose blocks C and D are over threshold. -/
def c2_group : rds_blocks :=
  { a := { val := 0, errors := 3 }, b := { val := 0x9000, errors := 0 },
    c := { val := 0xABCD, errors := 3 }, d := { val := 0x0042, errors := 3 } }

/-- The spec's clock scenario: 4A with B=0x4001, C=0xB32D, D=0xE6C0. -/
def c3_group : rds_blocks :=
  { a := { val := 0, errors := 3 }, b := { val := 0x4001, errors := 0 },
    c := { val := 0xB32D, errors := 0 }, d := { val := 0xE6C0, errors := 0 } }

/-- An AF decode table committed to method B, tuned to 87.6 MHz
(code 1), expecting two more frequencies. -/
def c4_table : rds_af_decode_table :=
  { table := { tuned_freq := { band := .UHF, attrib := .SAME_PROG, freq := 876 }
               count := 0
               entry := List.replicate 25 freqZero }
    enc_method := .B
    pvt_band := .UHF
    pvt_prev_enc_method := .B
    pvt_expected_cnt := 2 }

/-- A 0A group with the TA bit set in block B and block D over
threshold. -/
def c5_group : rds_blocks :=
  { a := { val := 0, errors := 3 }, b := { val := 0x0010, errors := 0 },
    c := { val := 0, errors := 3 }, d := { val := 0, errors := 3 } }

/-- A 5A group whose block B selects TDC channel 2 (B & 0x1F = 2). -/
def c6_group : rds_blocks :=
  { a := { val := 0, errors := 3 }, b := { val := 0x5002, errors := 0 },
    c := { val := 0x1122, errors := 0 }, d := { val := 0x3344, errors := 0 } }

/-- A 3A group announcing application 0x4BD7 on group 11A. -/
def c7_group : rds_blocks :=
  { a := { val := 0, errors := 3 }, b := { val := 0x3016, errors := 0 },
    c := { val := 0, errors := 0 }, d := { val := 0x4BD7, errors := 0 } }

/- ---------------------------------------------------------------------
Theorems.
--------------------------------------------------------------------- -/

/- ---------------------------------------------------------------------
Frame lemmas: the bookkeeping steps of the dispatcher do not touch the
payload fields the claims are about.
--------------------------------------------------------------------- -/

@[simp] theorem statsBumpCount_clock (rds : rds_data) (i : Nat) :
    (statsBumpCount rds i).clock = rds.clock := rfl

@[simp] theorem statsBumpCount_af (rds : rds_data) (i : Nat) :
    (statsBumpCount rds i).af = rds.af := rfl

@[simp] theorem statsBumpCount_eon (rds : rds_data) (i : Nat) :
    (statsBumpCount rds i).eon = rds.eon := rfl

@[simp] theorem statsBumpCount_oda (rds : rds_data) (i : Nat) :
    (statsBumpCount rds i).oda = rds.oda := rfl

@[simp] theorem statsBumpCount_oda_cnt (rds : rds_data) (i : Nat) :
    (statsBumpCount rds i).oda_cnt = rds.oda_cnt := rfl

@[simp] theorem statsBumpCount_ta_code (rds : rds_data) (i : Nat) :
    (statsBumpCount rds i).ta_code = rds.ta_code := rfl

@[simp] theorem statsBumpCount_music (rds : rds_data) (i : Nat) :
    (statsBumpCount rds i).music = rds.music := rfl

@[simp] theorem statsBumpCount_ps (rds : rds_data) (i : Nat) :
    (statsBumpCount rds i).ps = rds.ps := rfl

@[simp] theorem statsBumpCount_ews (rds : rds_data) (i : Nat) :
    (statsBumpCount rds i).ews = rds.ews := rfl

@[simp] theorem statsBumpCount_tdc (rds : rds_data) (i : Nat) :
    (statsBumpCount rds i).tdc = rds.tdc := rfl

@[simp] theorem statsGroupBump_clock (rds : rds_data) (gt : rds_group_type) :
    (statsGroupBump rds gt).clock = rds.clock := rfl

@[simp] theorem statsGroupBump_af (rds : rds_data) (gt : rds_group_type) :
    (statsGroupBump rds gt).af = rds.af := rfl

@[simp] theorem statsGroupBump_eon (rds : rds_data) (gt : rds_group_type) :
    (statsGroupBump rds gt).eon = rds.eon := rfl

@[simp] theorem statsGroupBump_oda (rds : rds_data) (gt : rds_group_type) :
    (statsGroupBump rds gt).oda = rds.oda := rfl

@[simp] theorem statsGroupBump_oda_cnt (rds : rds_data) (gt : rds_group_type) :
    (statsGroupBump rds gt).oda_cnt = rds.oda_cnt := rfl

@[simp] theorem statsGroupBump_ta_code (rds : rds_data) (gt : rds_group_type) :
    (statsGroupBump rds gt).ta_code = rds.ta_code := rfl

@[simp] theorem statsGroupBump_music (rds : rds_data) (gt : rds_group_type) :
    (statsGroupBump rds gt).music = rds.music := rfl

@[simp] theorem statsGroupBump_ps (rds : rds_data) (gt : rds_group_type) :
    (statsGroupBump rds gt).ps = rds.ps := rfl

@[simp] theorem statsGroupBump_ews (rds : rds_data) (gt : rds_group_type) :
    (statsGroupBump rds gt).ews = rds.ews := rfl

@[simp] theorem statsGroupBump_tdc (rds : rds_data) (gt : rds_group_type) :
    (statsGroupBump rds gt).tdc = rds.tdc := rfl

@[simp] theorem decode_pty_clock (rds : rds_data) (block : rds_block) :
    (decode_pty rds block).clock = rds.clock := by simp only [decode_pty]; split <;> simp

@[simp] theorem decode_pty_af (rds : rds_data) (block : rds_block) :
    (decode_pty rds block).af = rds.af := by simp only [decode_pty]; split <;> simp

@[simp] theorem decode_pty_eon (rds : rds_data) (block : rds_block) :
    (decode_pty rds block).eon = rds.eon := by simp only [decode_pty]; split <;> simp

@[simp] theorem decode_pty_oda (rds : rds_data) (block : rds_block) :
    (decode_pty rds block).oda = rds.oda := by simp only [decode_pty]; split <;> simp

@[simp] theorem decode_pty_oda_cnt (rds : rds_data) (block : rds_block) :
    (decode_pty rds block).oda_cnt = rds.oda_cnt := by simp only [decode_pty]; split <;> simp

@[simp] theorem decode_pty_ta_code (rds : rds_data) (block : rds_block) :
    (decode_pty rds block).ta_code = rds.ta_code := by simp only [decode_pty]; split <;> simp

@[simp] theorem decode_pty_music (rds : rds_data) (block : rds_block) :
    (decode_pty rds block).music = rds.music := by simp only [decode_pty]; split <;> simp

@[simp] theorem decode_pty_ps (rds : rds_data) (block : rds_block) :
    (decode_pty rds block).ps = rds.ps := by simp only [decode_pty]; split <;> simp

@[simp] theorem decode_pty_ews (rds : rds_data) (block : rds_block) :
    (decode_pty rds block).ews = rds.ews := by simp only [decode_pty]; split <;> simp

@[simp] theorem decode_pty_tdc (rds : rds_data) (block : rds_block) :
    (decode_pty rds block).tdc = rds.tdc := by simp only [decode_pty]; split <;> simp

@[simp] theorem decode_latch_pi_a_clock (rds : rds_data) (blocks : rds_blocks) :
    (decode_latch_pi_a rds blocks).clock = rds.clock := by simp only [decode_latch_pi_a]; split <;> simp

@[simp] theorem decode_latch_pi_a_af (rds : rds_data) (blocks : rds_blocks) :
    (decode_latch_pi_a rds blocks).af = rds.af := by simp only [decode_latch_pi_a]; split <;> simp

@[simp] theorem decode_latch_pi_a_eon (rds : rds_data) (blocks : rds_blocks) :
    (decode_latch_pi_a rds blocks).eon = rds.eon := by simp only [decode_latch_pi_a]; split <;> simp

@[simp] theorem decode_latch_pi_a_oda (rds : rds_data) (blocks : rds_blocks) :
    (decode_latch_pi_a rds blocks).oda = rds.oda := by simp only [decode_latch_pi_a]; split <;> simp

@[simp] theorem decode_latch_pi_a_oda_cnt (rds : rds_data) (blocks : rds_blocks) :
    (decode_latch_pi_a rds blocks).oda_cnt = rds.oda_cnt := by simp only [decode_latch_pi_a]; split <;> simp

@[simp] theorem decode_latch_pi_a_ta_code (rds : rds_data) (blocks : rds_blocks) :
    (decode_latch_pi_a rds blocks).ta_code = rds.ta_code := by simp only [decode_latch_pi_a]; split <;> simp

@[simp] theorem decode_latch_pi_a_music (rds : rds_data) (blocks : rds_blocks) :
    (decode_latch_pi_a rds blocks).music = rds.music := by simp only [decode_latch_pi_a]; split <;> simp

@[simp] theorem decode_latch_pi_a_ps (rds : rds_data) (blocks : rds_blocks) :
    (decode_latch_pi_a rds blocks).ps = rds.ps := by simp only [decode_latch_pi_a]; split <;> simp

@[simp] theorem decode_latch_pi_a_ews (rds : rds_data) (blocks : rds_blocks) :
    (decode_latch_pi_a rds blocks).ews = rds.ews := by simp only [decode_latch_pi_a]; split <;> simp

@[simp] theorem decode_latch_pi_a_tdc (rds : rds_data) (blocks : rds_blocks) :
    (decode_latch_pi_a rds blocks).tdc = rds.tdc := by simp only [decode_latch_pi_a]; split <;> simp

@[simp] theorem decode_latch_pi_c_clock (rds : rds_data) (gt : rds_group_type) (blocks : rds_blocks) :
    (decode_latch_pi_c rds gt blocks).clock = rds.clock := by simp only [decode_latch_pi_c]; split <;> simp

@[simp] theorem decode_latch_pi_c_af (rds : rds_data) (gt : rds_group_type) (blocks : rds_blocks) :
    (decode_latch_pi_c rds gt blocks).af = rds.af := by simp only [decode_latch_pi_c]; split <;> simp

@[simp] theorem decode_latch_pi_c_eon (rds : rds_data) (gt : rds_group_type) (blocks : rds_blocks) :
    (decode_latch_pi_c rds gt blocks).eon = rds.eon := by simp only [decode_latch_pi_c]; split <;> simp

@[simp] theorem decode_latch_pi_c_oda (rds : rds_data) (gt : rds_group_type) (blocks : rds_blocks) :
    (decode_latch_pi_c rds gt blocks).oda = rds.oda := by simp only [decode_latch_pi_c]; split <;> simp

@[simp] theorem decode_latch_pi_c_oda_cnt (rds : rds_data) (gt : rds_group_type) (blocks : rds_blocks) :
    (decode_latch_pi_c rds gt blocks).oda_cnt = rds.oda_cnt := by simp only [decode_latch_pi_c]; split <;> simp

@[simp] theorem decode_latch_pi_c_ta_code (rds : rds_data) (gt : rds_group_type) (blocks : rds_blocks) :
    (decode_latch_pi_c rds gt blocks).ta_code = rds.ta_code := by simp only [decode_latch_pi_c]; split <;> simp

@[simp] theorem decode_latch_pi_c_music (rds : rds_data) (gt : rds_group_type) (blocks : rds_blocks) :
    (decode_latch_pi_c rds gt blocks).music = rds.music := by simp only [decode_latch_pi_c]; split <;> simp

@[simp] theorem decode_latch_pi_c_ps (rds : rds_data) (gt : rds_group_type) (blocks : rds_blocks) :
    (decode_latch_pi_c rds gt blocks).ps = rds.ps := by simp only [decode_latch_pi_c]; split <;> simp

@[simp] theorem decode_latch_pi_c_ews (rds : rds_data) (gt : rds_group_type) (blocks : rds_blocks) :
    (decode_latch_pi_c rds gt blocks).ews = rds.ews := by simp only [decode_latch_pi_c]; split <;> simp

@[simp] theorem decode_latch_pi_c_tdc (rds : rds_data) (gt : rds_group_type) (blocks : rds_blocks) :
    (decode_latch_pi_c rds gt blocks).tdc = rds.tdc := by simp only [decode_latch_pi_c]; split <;> simp

@[simp] theorem decode_alt_freq_ta_code (rds : rds_data) (blocks : rds_blocks) :
    (decode_alt_freq rds blocks).ta_code = rds.ta_code := by
  simp only [decode_alt_freq]; split <;> simp

@[simp] theorem decode_alt_freq_music (rds : rds_data) (blocks : rds_blocks) :
    (decode_alt_freq rds blocks).music = rds.music := by
  simp only [decode_alt_freq]; split <;> simp

@[simp] theorem decode_alt_freq_ps (rds : rds_data) (blocks : rds_blocks) :
    (decode_alt_freq rds blocks).ps = rds.ps := by
  simp only [decode_alt_freq]; split <;> simp

@[simp] theorem statsBumpCount_oda_len (rds : rds_data) (i : Nat) :
    (statsBumpCount rds i).oda.length = rds.oda.length := rfl

/-- `IsGroupTypeUsedByODA` depends only on the `oda` field. -/
theorem IsGroupTypeUsedByODA_congr (r r' : rds_data) (gt : rds_group_type)
    (h : r.oda = r'.oda) : IsGroupTypeUsedByODA r gt = IsGroupTypeUsedByODA r' gt := by
  simp [IsGroupTypeUsedByODA, h]

/-- Bitwise AND distributes over right shift. -/
theorem and_shiftRight_comm (d m k : Nat) : (d &&& m) >>> k = (d >>> k) &&& (m >>> k) := by
  apply Nat.eq_of_testBit_eq
  intro i
  simp [Nat.testBit_shiftRight, Nat.testBit_and]


/-- C9: `rds_decoder_reset` zeroes the entire RDS state record, then
sets the AF group's current table index to -1; when a clear callback is
bound it is invoked exactly once and observes the already-reset state,
and when no clear callback is bound no callback is invoked. -/
theorem c9_reset_zeroes_then_fires_clear_cb
    (decoder : rds_decoder) (rds : rds_data) :
    (rds_decoder_reset decoder rds).rds =
      { rdsDataZero with af := { rdsDataZero.af with pvt_current_table_idx := -1 } } ∧
    (rds_decoder_reset decoder rds).clear_cb_calls =
      (if decoder.oda_clear_cb then 1 else 0) ∧
    (rds_decoder_reset decoder rds).rds_at_clear_cb =
      (if decoder.oda_clear_cb then some (rds_decoder_reset decoder rds).rds else none) := by
  unfold rds_decoder_reset
  by_cases h : decoder.oda_clear_cb <;> simp [h]

/-- C10: every fixed-size buffer write in the embedded decoder is
guarded: PS character updates (both algorithms) and PTYN character
updates are skipped when the character index is 8 or more, and TDC
byte appends are skipped when the current channel index is 32 or more;
the decode functions are total on all such inputs. -/
theorem c10_buffer_writes_are_guarded :
    (∀ rds char_idx byte, char_idx ≥ 8 → update_ps_advanced rds char_idx byte = rds) ∧
    (∀ rds char_idx byte, char_idx ≥ 8 → update_ps_simple rds char_idx byte = rds) ∧
    (∀ rds char_idx ch, char_idx ≥ 8 → update_ptyn rds char_idx ch = rds) ∧
    (∀ rds block, rds.tdc.curr_channel ≥ 32 → decode_tdc_block rds block = rds) := by
  refine ⟨?_, ?_, ?_, ?_⟩
  · intro rds i b h
    simp [update_ps_advanced, h]
  · intro rds i b h
    simp [update_ps_simple, h]
  · intro rds i b h
    simp [update_ptyn, h]
  · intro rds blk h
    simp only [decode_tdc_block, NUM_TDC]
    rw [if_pos h]

/-- Witness for C10 at concrete out-of-range indices. -/
theorem c10_buffer_writes_are_guarded_witness :
    update_ps_advanced rdsDataZero 8 65 = rdsDataZero ∧
    update_ps_simple rdsDataZero 9 66 = rdsDataZero ∧
    update_ptyn rdsDataZero 8 67 = rdsDataZero ∧
    decode_tdc_block { rdsDataZero with tdc := { rdsDataZero.tdc with curr_channel := 32 } }
        { val := 0x1122, errors := 0 } =
      { rdsDataZero with tdc := { rdsDataZero.tdc with curr_channel := 32 } } :=
  ⟨c10_buffer_writes_are_guarded.1 rdsDataZero 8 65 (by decide),
   c10_buffer_writes_are_guarded.2.1 rdsDataZero 9 66 (by decide),
   c10_buffer_writes_are_guarded.2.2.1 rdsDataZero 8 67 (by decide),
   c10_buffer_writes_are_guarded.2.2.2 _ _ (by decide)⟩

/-- C6 (code bug): for the 5A group `c6_group` with B = 0x5002 the
decoder stores `B & 0x11 = 0` into `tdc.curr_channel` (the C source
masks with the mistyped hex literal 0x11111, truncated to 0x11 by the
uint8 assignment), while the claimed behavior `B & 0x1F` would select
channel 2. -/
theorem c6_tdc_channel_mask_divergence :
    (rds_decoder_decode cfg0 rdsDataZero c6_group).tdc.curr_channel = 0 ∧
    c6_group.b.val &&& 0x1F = 2 := by
  decide

/-- C1 counterexample: a group with block-B errors above BLERB_MAX but
a clean block A still rewrites `pi_code`, so decode does not leave all
fields other than `stats.blckb_errors` and `stats.data_cnt`
unchanged. -/
theorem c1_counterexample :
    c1_group.b.errors > 1 ∧
    (rds_decoder_decode cfg0 rdsDataZero c1_group).pi_code ≠ rdsDataZero.pi_code := by
  decide

/-- C2 counterexample: for the 9A group `c2_group` whose block C has
BLER class 3 (over the block-C threshold 2), decode still latches the
EWS capture from block C, violating the per-block-threshold claim. -/
theorem c2_counterexample :
    c2_group.c.errors > BLERC_MAX ∧
    (rds_decoder_decode cfg0 rdsDataZero c2_group).ews.c.val = 0xABCD ∧
    rdsDataZero.ews.c.val = 0 := by
  decide

/-- C4 counterexample: method-B pair (codes 5, 1) against tuned
frequency 87.6 (code 1): the anchor is the second byte and is the
numerically lower member, yet the appended frequency 88.0 carries
SAME_PROGRAM, not REGIONAL_VARIANT as the claim requires. -/
theorem c4_counterexample :
    freq_eq { band := .UHF, attrib := .SAME_PROG, freq := af_code_to_freq 1 .UHF }
        c4_table.table.tuned_freq = true ∧
    af_code_to_freq 1 rds_band.UHF < af_code_to_freq 5 rds_band.UHF ∧
    ((decode_freq_table_nth_block c4_table 5 1).table.entry.getD 0 freqZero) =
      { band := .UHF, attrib := .SAME_PROG, freq := 880 } ∧
    (decode_freq_table_nth_block c4_table 5 1).table.count = 1 := by
  decide

/-- C5 counterexample: for the 0A group `c5_group` whose block B has
its TA bit set but whose block D is over threshold, decode leaves
`ta_code` false instead of updating it from block B as claimed. -/
theorem c5_counterexample :
    c5_group.b.val &&& 0x10 ≠ 0 ∧
    c5_group.d.errors > BLERD_MAX ∧
    (rds_decoder_decode cfg0 rdsDataZero c5_group).ta_code = false := by
  decide

/-- C3: for a group whose block B encodes group type 4A, when blocks B,
C, D are each within their thresholds and their error classes sum to at
most the block-B threshold, decode sets the clock fields to
day_high = (B&2)>>1, day_low = ((B&1)<<15)|((C&0xFFFE)>>1),
hour = ((C&1)<<4)|((D>>12)&0xF), minute = (D>>6)&0x3F, and
utc_offset = D&0x1F negated when bit 5 of D is set; when any of these
conditions fails, the clock fields are unchanged. -/
theorem c3_clock_update (decoder : rds_decoder) (rds : rds_data) (blocks : rds_blocks)
    (hcode : blocks.b.val &&& GT_CODE_MASK = 0x4000)
    (hver : blocks.b.val &&& VERSION_CODE = 0) :
    ((blocks.b.errors ≤ BLERB_MAX ∧ blocks.c.errors ≤ BLERC_MAX ∧
      blocks.d.errors ≤ BLERD_MAX ∧
      blocks.b.errors + blocks.c.errors + blocks.d.errors ≤ BLERB_MAX) →
      (rds_decoder_decode decoder rds blocks).clock =
        { day_high := (blocks.b.val &&& 2) >>> 1 != 0
          day_low := ((blocks.b.val &&& 1) <<< 15) ||| ((blocks.c.val &&& 0xFFFE) >>> 1)
          hour := ((blocks.c.val &&& 1) <<< 4) ||| ((blocks.d.val >>> 12) &&& 0xF)
          minute := (blocks.d.val >>> 6) &&& 0x3F
          utc_offset := if blocks.d.val &&& 0x20 != 0
            then -(((blocks.d.val &&& 0x1F : Nat)) : Int)
            else (((blocks.d.val &&& 0x1F : Nat)) : Int) }) ∧
    (¬(blocks.b.errors ≤ BLERB_MAX ∧ blocks.c.errors ≤ BLERC_MAX ∧
       blocks.d.errors ≤ BLERD_MAX ∧
       blocks.b.errors + blocks.c.errors + blocks.d.errors ≤ BLERB_MAX) →
      (rds_decoder_decode decoder rds blocks).clock = rds.clock) := by
  have e1 : (16384 : Nat) >>> 12 = 4 := by decide
  constructor
  · rintro ⟨hb, hc, hd, hsum⟩
    have hbne : ¬ (blocks.b.errors > BLERB_MAX) := by omega
    rw [rds_decoder_decode]
    rw [if_neg hbne]
    rw [decode_dispatch]
    simp only [hcode, hver, e1]
    norm_num
    rw [decode_group_type_4]
    norm_num
    rw [update_clock]
    rw [if_neg hbne, if_neg (show ¬ blocks.c.errors > BLERC_MAX by omega),
        if_neg (show ¬ blocks.d.errors > BLERD_MAX by omega),
        if_neg (show ¬ (blocks.b.errors + blocks.c.errors + blocks.d.errors > BLERB_MAX) by omega)]
    simp only [statsBumpCount_clock]
    rw [and_shiftRight_comm blocks.b.val 3 1, and_shiftRight_comm blocks.b.val 2 1]
    rw [and_shiftRight_comm blocks.d.val 0b1111000000000000 12]
    rw [and_shiftRight_comm blocks.d.val 0b0000111111000000 6]
    norm_num [show (3:Nat) >>> 1 = 1 from by decide, show (2:Nat) >>> 1 = 1 from by decide,
      show (61440:Nat) >>> 12 = 15 from by decide, show (4032:Nat) >>> 6 = 63 from by decide]
  · intro hfail
    by_cases hbe : blocks.b.errors > BLERB_MAX
    · rw [rds_decoder_decode]
      rw [if_pos hbe]
      simp
    · rw [rds_decoder_decode]
      rw [if_neg hbe]
      rw [decode_dispatch]
      simp only [hcode, hver, e1]
      norm_num
      rw [decode_group_type_4]
      norm_num
      rw [update_clock]
      rw [if_neg hbe]
      by_cases hce : blocks.c.errors > BLERC_MAX
      · rw [if_pos hce]
        simp
      · rw [if_neg hce]
        by_cases hde : blocks.d.errors > BLERD_MAX
        · rw [if_pos hde]
          simp
        · rw [if_neg hde]
          rw [if_pos (show blocks.b.errors + blocks.c.errors + blocks.d.errors > BLERB_MAX
            by omega)]
          simp

/-- Witness for C3 at the spec's clock scenario (4A with B=0x4001,
C=0xB32D, D=0xE6C0, all BLER NONE). -/
theorem c3_clock_update_witness :
    (rds_decoder_decode cfg0 rdsDataZero c3_group).clock =
      { day_high := false, day_low := 0xD996, hour := 30, minute := 27, utc_offset := 0 } := by
  have h := (c3_clock_update cfg0 rdsDataZero c3_group (by decide) (by decide)).1 (by decide)
  rw [h]
  decide

/-- C5 (amended): for every group of type 0 (version A or B) whose
block B is within threshold but whose block D exceeds its threshold,
decode skips the whole block-B/D tail of the handler: ta_code, music
and the PS state are all left unchanged (only the 0A AF decoding from
block C still runs); the C code checks block D before reading TA and MS
from block B. -/
theorem c5_amended_group0_bad_d_drops_ta_ms_ps
    (decoder : rds_decoder) (rds : rds_data) (blocks : rds_blocks)
    (hcode : blocks.b.val &&& GT_CODE_MASK = 0)
    (hb : blocks.b.errors ≤ BLERB_MAX) (hd : blocks.d.errors > BLERD_MAX) :
    (rds_decoder_decode decoder rds blocks).ta_code = rds.ta_code ∧
    (rds_decoder_decode decoder rds blocks).music = rds.music ∧
    (rds_decoder_decode decoder rds blocks).ps = rds.ps := by
  have hbne : ¬ (blocks.b.errors > BLERB_MAX) := by omega
  have e0 : (0 : Nat) >>> 12 = 0 := by decide
  refine ⟨?_, ?_, ?_⟩ <;>
  · rw [rds_decoder_decode]
    rw [if_neg hbne]
    rw [decode_dispatch]
    simp only [hcode, e0]
    norm_num
    simp only [decode_group_type_0]
    rw [if_pos hd]
    split <;> simp

/-- Witness for C5 (amended) at the concrete group `c5_group`. -/
theorem c5_amended_group0_bad_d_drops_ta_ms_ps_witness :
    (rds_decoder_decode cfg0 rdsDataZero c5_group).ta_code = rdsDataZero.ta_code ∧
    (rds_decoder_decode cfg0 rdsDataZero c5_group).music = rdsDataZero.music ∧
    (rds_decoder_decode cfg0 rdsDataZero c5_group).ps = rdsDataZero.ps :=
  c5_amended_group0_bad_d_drops_ta_ms_ps cfg0 rdsDataZero c5_group
    (by decide) (by decide) (by decide)

/-- `decode_ews` stores block B's low five bits (with B's error class)
and blocks C and D verbatim, whatever the prior EWS state. -/
theorem decode_ews_ews (rds : rds_data) (blocks : rds_blocks) :
    (decode_ews rds blocks).ews =
      { b := { val := blocks.b.val &&& 0b11111, errors := blocks.b.errors }
        c := blocks.c, d := blocks.d } := by
  simp [decode_ews]

/-- C2 (amended): the per-block BLER gates do not cover the EWS and
EON captures.  For every accepted 9A group (not ODA-owned), the EWS
capture latches blocks C and D - and block B's masked value - verbatim,
regardless of the C and D error classes; and for every accepted 14A
group with variant code 0, the EON PS pair is latched from block C
regardless of block C's error class. -/
theorem c2_amended_ews_eon_latch_unconditionally :
    (∀ (decoder : rds_decoder) (rds : rds_data) (blocks : rds_blocks),
      blocks.b.val &&& GT_CODE_MASK = 0x9000 →
      blocks.b.val &&& VERSION_CODE = 0 →
      blocks.b.errors ≤ BLERB_MAX →
      IsGroupTypeUsedByODA rds { code := 9, version := 'A' } = false →
      (rds_decoder_decode decoder rds blocks).ews =
        { b := { val := blocks.b.val &&& 0b11111, errors := blocks.b.errors }
          c := blocks.c, d := blocks.d }) ∧
    (∀ (decoder : rds_decoder) (rds : rds_data) (blocks : rds_blocks),
      blocks.b.val &&& GT_CODE_MASK = 0xE000 →
      blocks.b.val &&& VERSION_CODE = 0 →
      blocks.b.errors ≤ BLERB_MAX →
      blocks.b.val &&& 0xF = 0 →
      rds.eon.on_.ps.length = 8 →
      (rds_decoder_decode decoder rds blocks).eon.on_.ps.getD 0 0 =
        (blocks.c.val >>> 8) &&& 0xFF ∧
      (rds_decoder_decode decoder rds blocks).eon.on_.ps.getD 1 0 =
        blocks.c.val &&& 0xFF) := by
  constructor
  · intro decoder rds blocks hcode hver hb hoda
    have hbne : ¬ (blocks.b.errors > BLERB_MAX) := by omega
    have e9 : (0x9000 : Nat) >>> 12 = 9 := by decide
    rw [rds_decoder_decode]
    rw [if_neg hbne]
    rw [decode_dispatch]
    simp only [hcode, hver, e9]
    norm_num
    simp only [decode_group_type_9]
    simp only [IsGroupTypeUsedByODA] at hoda ⊢
    simp only [statsBumpCount_oda, statsGroupBump_oda, decode_pty_oda,
      decode_latch_pi_a_oda, decode_latch_pi_c_oda]
    norm_num [hoda, decode_ews_ews]
  · intro decoder rds blocks hcode hver hb hvc hlen
    have hbne : ¬ (blocks.b.errors > BLERB_MAX) := by omega
    have e14 : (0xE000 : Nat) >>> 12 = 14 := by decide
    refine ⟨?_, ?_⟩ <;>
    · rw [rds_decoder_decode]
      rw [if_neg hbne]
      rw [decode_dispatch]
      simp only [hcode, hver, e14]
      norm_num
      simp only [decode_group_type_14, decode_eon_block_a, hvc]
      norm_num
      simp [List.getElem?_set_self, hlen]

/-- A 14A group with variant code 0 and block C over threshold. -/
def c2_group14 : rds_blocks :=
  { a := { val := 0, errors := 3 }, b := { val := 0xE000, errors := 0 },
    c := { val := 0x5251, errors := 3 }, d := { val := 0, errors := 0 } }

/-- Witness for C2 (amended) at concrete over-threshold groups. -/
theorem c2_amended_ews_eon_latch_unconditionally_witness :
    (rds_decoder_decode cfg0 rdsDataZero c2_group).ews =
      { b := { val := c2_group.b.val &&& 0b11111, errors := c2_group.b.errors }
        c := c2_group.c, d := c2_group.d } ∧
    (rds_decoder_decode cfg0 rdsDataZero c2_group14).eon.on_.ps.getD 0 0 =
      (c2_group14.c.val >>> 8) &&& 0xFF ∧
    (rds_decoder_decode cfg0 rdsDataZero c2_group14).eon.on_.ps.getD 1 0 =
      c2_group14.c.val &&& 0xFF :=
  ⟨c2_amended_ews_eon_latch_unconditionally.1 cfg0 rdsDataZero c2_group
      (by decide) (by decide) (by decide) (by decide),
   c2_amended_ews_eon_latch_unconditionally.2 cfg0 rdsDataZero c2_group14
      (by decide) (by decide) (by decide) (by decide) (by decide)⟩

/-- C1 (amended): for every group with block-B errors above BLERB_MAX,
decode leaves every field of the RDS state record unchanged except
stats.data_cnt, stats.blckb_errors and - when block A is within its
threshold - the PI latch (pi_code, the RDS_PI_CODE valid bit and
stats.counts[PKTCNT_PI_CODE]), because the block-A latch runs before
the block-B gate. -/
theorem c1_amended_block_b_gate_after_pi_latch (decoder : rds_decoder) (rds : rds_data) (blocks : rds_blocks)
    (h : blocks.b.errors > BLERB_MAX) :
    (rds_decoder_decode decoder rds blocks).pic = rds.pic ∧
    (rds_decoder_decode decoder rds blocks).pty = rds.pty ∧
    (rds_decoder_decode decoder rds blocks).tp_code = rds.tp_code ∧
    (rds_decoder_decode decoder rds blocks).ta_code = rds.ta_code ∧
    (rds_decoder_decode decoder rds blocks).music = rds.music ∧
    (rds_decoder_decode decoder rds blocks).ps = rds.ps ∧
    (rds_decoder_decode decoder rds blocks).rt = rds.rt ∧
    (rds_decoder_decode decoder rds blocks).clock = rds.clock ∧
    (rds_decoder_decode decoder rds blocks).slc = rds.slc ∧
    (rds_decoder_decode decoder rds blocks).ptyn = rds.ptyn ∧
    (rds_decoder_decode decoder rds blocks).af = rds.af ∧
    (rds_decoder_decode decoder rds blocks).eon = rds.eon ∧
    (rds_decoder_decode decoder rds blocks).oda_cnt = rds.oda_cnt ∧
    (rds_decoder_decode decoder rds blocks).oda = rds.oda ∧
    (rds_decoder_decode decoder rds blocks).tdc = rds.tdc ∧
    (rds_decoder_decode decoder rds blocks).ews = rds.ews ∧
    (rds_decoder_decode decoder rds blocks).stats.groups = rds.stats.groups ∧
    (rds_decoder_decode decoder rds blocks).stats.data_cnt = (rds.stats.data_cnt + 1) % 65536 ∧
    (rds_decoder_decode decoder rds blocks).stats.blckb_errors =
      (rds.stats.blckb_errors + 1) % 65536 ∧
    (rds_decoder_decode decoder rds blocks).pi_code =
      (if blocks.a.errors ≤ BLERA_MAX then blocks.a.val else rds.pi_code) ∧
    (rds_decoder_decode decoder rds blocks).valid_values =
      (if blocks.a.errors ≤ BLERA_MAX then rds.valid_values ||| RDS_PI_CODE
       else rds.valid_values) ∧
    (rds_decoder_decode decoder rds blocks).stats.counts =
      (if blocks.a.errors ≤ BLERA_MAX then
        rds.stats.counts.set PKTCNT_PI_CODE (rds.stats.counts.getD PKTCNT_PI_CODE 0 + 1)
       else rds.stats.counts) := by
  rw [rds_decoder_decode]
  rw [if_pos h]
  by_cases ha : blocks.a.errors ≤ BLERA_MAX <;>
    simp [decode_latch_pi_a, statsBumpCount, ha]

/-- Witness for C1 (amended) at the concrete group `c1_group`. -/
theorem c1_amended_block_b_gate_after_pi_latch_witness :
    (rds_decoder_decode cfg0 rdsDataZero c1_group).af = rdsDataZero.af ∧
    (rds_decoder_decode cfg0 rdsDataZero c1_group).stats.blckb_errors =
      (rdsDataZero.stats.blckb_errors + 1) % 65536 := by
  obtain ⟨h1, h2, h3, h4, h5, h6, h7, h8, h9, h10, h11, h12, h13, h14, h15, h16,
    h17, h18, h19, h20, h21, h22⟩ :=
    c1_amended_block_b_gate_after_pi_latch cfg0 rdsDataZero c1_group (by decide)
  exact ⟨h11, h19⟩

/-- A real frequency code (1..204) is passed through by
`handle_freq_code` without touching the table. -/
theorem handle_freq_code_real (t : rds_af_decode_table) (c : Nat)
    (h : freq_code_is_freq c = true) : handle_freq_code t c = (false, t) := by
  have h1 : c ≠ AF_FILLER_CODE := by
    intro e
    rw [e] at h
    exact absurd h (by decide)
  have h2 : c ≠ AF_LF_MF_FOLLOWS := by
    intro e
    rw [e] at h
    exact absurd h (by decide)
  simp [handle_freq_code, h1, h2, h]

/-- C4 (amended): for an Nth-block AF pair under committed encoding
method B where both bytes decode to real frequencies and exactly one
matches the table's tuned frequency, the other byte is appended, and
its attrib becomes REGIONAL_VARIANT exactly when the first member of
the pair is numerically lower than the second (so the anchor being the
lower member yields REGIONAL_VARIANT only when the anchor is the first
byte; when the anchor is the second byte, REGIONAL_VARIANT is set when
the anchor is the higher member). -/
theorem c4_amended_method_b_attrib_from_pair_order
    (t : rds_af_decode_table) (f1 f2 : Nat)
    (henc : t.enc_method = .B)
    (hcnt : t.pvt_expected_cnt ≠ 0)
    (hf1 : freq_code_is_freq f1 = true)
    (hf2 : freq_code_is_freq f2 = true) :
    (freq_eq t.table.tuned_freq
        { band := t.pvt_band, attrib := .SAME_PROG, freq := af_code_to_freq f1 t.pvt_band } = true →
      decode_freq_table_nth_block t f1 f2 =
        { t with
          pvt_prev_enc_method := .B
          pvt_expected_cnt := t.pvt_expected_cnt - 1
          table := (insert_alt_freq t.table
            (if freq_lt
                { band := t.pvt_band, attrib := .SAME_PROG, freq := af_code_to_freq f1 t.pvt_band }
                { band := t.pvt_band, attrib := .SAME_PROG, freq := af_code_to_freq f2 t.pvt_band } then
              { band := t.pvt_band, attrib := .REG_VARIANT, freq := af_code_to_freq f2 t.pvt_band }
            else
              { band := t.pvt_band, attrib := .SAME_PROG, freq := af_code_to_freq f2 t.pvt_band })).2 }) ∧
    (freq_eq t.table.tuned_freq
        { band := t.pvt_band, attrib := .SAME_PROG, freq := af_code_to_freq f1 t.pvt_band } = false →
     freq_eq t.table.tuned_freq
        { band := t.pvt_band, attrib := .SAME_PROG, freq := af_code_to_freq f2 t.pvt_band } = true →
      decode_freq_table_nth_block t f1 f2 =
        { t with
          pvt_prev_enc_method := .B
          pvt_expected_cnt := t.pvt_expected_cnt - 1
          table := (insert_alt_freq t.table
            (if freq_lt
                { band := t.pvt_band, attrib := .SAME_PROG, freq := af_code_to_freq f1 t.pvt_band }
                { band := t.pvt_band, attrib := .SAME_PROG, freq := af_code_to_freq f2 t.pvt_band } then
              { band := t.pvt_band, attrib := .REG_VARIANT, freq := af_code_to_freq f1 t.pvt_band }
            else
              { band := t.pvt_band, attrib := .SAME_PROG, freq := af_code_to_freq f1 t.pvt_band })).2 }) := by
  constructor
  · intro heq1
    rw [decode_freq_table_nth_block]
    rw [if_neg hcnt]
    simp only [handle_freq_code_real _ _ hf1, handle_freq_code_real _ _ hf2]
    simp only [henc]
    rw [if_pos (show rds_af_encoding.B ≠ rds_af_encoding.UNKNOWN from by decide)]
    dsimp only
    rw [decode_freq_table_nth_block_emit]
    simp only [henc]
    rw [if_neg (show ¬ (rds_af_encoding.B = rds_af_encoding.A) from by decide)]
    rw [if_neg (show ¬ (false = true ∨ false = true) from by decide)]
    rw [if_pos heq1]
    simp [add_alt_freq, dec_af_expected_count, hcnt, henc]
  · intro heq1 heq2
    rw [decode_freq_table_nth_block]
    rw [if_neg hcnt]
    simp only [handle_freq_code_real _ _ hf1, handle_freq_code_real _ _ hf2]
    simp only [henc]
    rw [if_pos (show rds_af_encoding.B ≠ rds_af_encoding.UNKNOWN from by decide)]
    dsimp only
    rw [decode_freq_table_nth_block_emit]
    simp only [henc]
    rw [if_neg (show ¬ (rds_af_encoding.B = rds_af_encoding.A) from by decide)]
    rw [if_neg (show ¬ (false = true ∨ false = true) from by decide)]
    rw [if_neg (show ¬ (freq_eq t.table.tuned_freq
      { band := t.pvt_band, attrib := .SAME_PROG, freq := af_code_to_freq f1 t.pvt_band } = true)
      from by simp [heq1])]
    rw [if_pos heq2]
    simp [add_alt_freq, dec_af_expected_count, hcnt, henc]

/-- Witness for C4 (amended): the pair (codes 5, 1) against tuned
code 1 (anchor second and lower) appends 88.0 as SAME_PROGRAM. -/
theorem c4_amended_method_b_attrib_from_pair_order_witness :
    decode_freq_table_nth_block c4_table 5 1 =
      { c4_table with
        pvt_prev_enc_method := .B
        pvt_expected_cnt := 1
        table := (insert_alt_freq c4_table.table
          { band := .UHF, attrib := .SAME_PROG, freq := 880 }).2 } := by
  have h := (c4_amended_method_b_attrib_from_pair_order c4_table 5 1
    (by decide) (by decide) (by decide) (by decide)).2 (by decide) (by decide)
  rw [h]
  decide

/-- A successful `odaFindIdIdx` scan returns an index of an active
entry holding the searched application id. -/
theorem odaFindIdIdx_some (oda : List rds_oda_entry) (cnt app i : Nat)
    (h : odaFindIdIdx oda cnt app = some i) :
    i < cnt ∧ (oda.getD i odaEntryZero).id = app := by
  unfold odaFindIdIdx at h
  have hmem := List.mem_of_find?_eq_some h
  have hpred := List.find?_some h
  constructor
  · exact List.mem_range.mp hmem
  · simpa using hpred

/-- C7: for every accepted 3A group with block-D BLER NONE and a
nonzero application id, decode either updates the group-type slot of
the existing ODA entry with that id or appends a new entry (silently
dropping when all 10 slots are used): oda_cnt grows by 0 or 1 and the
affected entry's id equals block D with group type
(code = (B & 0b11110) >> 1, version = B if bit 0 of B else A). -/
theorem c7_oda_announce_updates_or_appends (decoder : rds_decoder) (rds : rds_data) (blocks : rds_blocks)
    (hcode : blocks.b.val &&& GT_CODE_MASK = 0x3000)
    (hver : blocks.b.val &&& VERSION_CODE = 0)
    (hb : blocks.b.errors ≤ BLERB_MAX)
    (hd : blocks.d.errors = BLER_NONE)
    (hid : blocks.d.val ≠ 0)
    (hlen : rds.oda.length = 10)
    (hcnt : rds.oda_cnt ≤ 10) :
    ((rds_decoder_decode decoder rds blocks).oda_cnt = rds.oda_cnt ∨
     (rds_decoder_decode decoder rds blocks).oda_cnt = rds.oda_cnt + 1) ∧
    (match odaFindIdIdx rds.oda rds.oda_cnt blocks.d.val with
     | some idx =>
       (rds_decoder_decode decoder rds blocks).oda_cnt = rds.oda_cnt ∧
       ((rds_decoder_decode decoder rds blocks).oda.getD idx odaEntryZero).id = blocks.d.val ∧
       ((rds_decoder_decode decoder rds blocks).oda.getD idx odaEntryZero).gt =
         { code := (blocks.b.val &&& 0b11110) >>> 1
           version := if blocks.b.val &&& 0x1 != 0 then 'B' else 'A' }
     | none =>
       if rds.oda_cnt < 10 then
         (rds_decoder_decode decoder rds blocks).oda_cnt = rds.oda_cnt + 1 ∧
         ((rds_decoder_decode decoder rds blocks).oda.getD rds.oda_cnt odaEntryZero).id =
           blocks.d.val ∧
         ((rds_decoder_decode decoder rds blocks).oda.getD rds.oda_cnt odaEntryZero).gt =
           { code := (blocks.b.val &&& 0b11110) >>> 1
             version := if blocks.b.val &&& 0x1 != 0 then 'B' else 'A' }
       else
         (rds_decoder_decode decoder rds blocks).oda = rds.oda ∧
         (rds_decoder_decode decoder rds blocks).oda_cnt = rds.oda_cnt) := by
  have hbne : ¬ (blocks.b.errors > BLERB_MAX) := by omega
  have e3 : (0x3000 : Nat) >>> 12 = 3 := by decide
  have hmain : rds_decoder_decode decoder rds blocks =
      decode_group_type_3
        (decode_pty (statsGroupBump (decode_latch_pi_c (decode_latch_pi_a
          { rds with stats := { rds.stats with data_cnt := (rds.stats.data_cnt + 1) % 65536 } }
          blocks) { code := 3, version := 'A' } blocks) { code := 3, version := 'A' })
          blocks.b)
        { code := 3, version := 'A' } blocks := by
    rw [rds_decoder_decode]
    rw [if_neg hbne]
    rw [decode_dispatch]
    simp only [hcode, hver, e3]
    norm_num
  rw [hmain]
  set r1 := decode_pty (statsGroupBump (decode_latch_pi_c (decode_latch_pi_a
    { rds with stats := { rds.stats with data_cnt := (rds.stats.data_cnt + 1) % 65536 } }
    blocks) { code := 3, version := 'A' } blocks) { code := 3, version := 'A' }) blocks.b with hr1
  have hoda_eq : r1.oda = rds.oda := by rw [hr1]; simp
  have hcnt_eq : r1.oda_cnt = rds.oda_cnt := by rw [hr1]; simp
  rw [decode_group_type_3]
  norm_num
  rw [if_pos hd]
  simp only [IsValidODAAppId, hid, bne_iff_ne, ne_eq, not_true_eq_false, not_false_eq_true,
    Bool.not_true, Bool.not_false, if_true, if_false]
  have hid' : (blocks.d.val = 0) = False := by simp [hid]
  rw [hoda_eq, hcnt_eq]
  cases hfind : odaFindIdIdx rds.oda rds.oda_cnt blocks.d.val with
  | some idx =>
    obtain ⟨hlt, hidq⟩ := odaFindIdIdx_some _ _ _ _ hfind
    simp only [hfind]
    rw [if_neg (show ¬ ((blocks.d.val != 0) = false) from by simp [hid])]
    have hidxlen : idx < rds.oda.length := by rw [hlen]; omega
    refine ⟨Or.inl (by simp [hcnt_eq]), by simp [hcnt_eq], ?_, ?_⟩
    · simp only [List.getD_eq_getElem?_getD, List.getElem?_set_self hidxlen]
      simp only [List.getD_eq_getElem?_getD] at hidq
      simp [hidq]
    · simp only [List.getD_eq_getElem?_getD, List.getElem?_set_self hidxlen]
      simp
  | none =>
    simp only [hfind]
    rw [if_neg (show ¬ ((blocks.d.val != 0) = false) from by simp [hid])]
    by_cases hfull : rds.oda_cnt < 10
    · rw [if_pos hfull, if_pos hfull]
      have hidxlen : rds.oda_cnt < rds.oda.length := by rw [hlen]; omega
      refine ⟨Or.inr (by simp [hcnt_eq]), by simp [hcnt_eq], ?_, ?_⟩
      · simp only [hcnt_eq, List.getD_eq_getElem?_getD, List.getElem?_set_self hidxlen]
        simp
      · simp only [hcnt_eq, List.getD_eq_getElem?_getD, List.getElem?_set_self hidxlen]
        simp
    · rw [if_neg hfull, if_neg hfull]
      exact ⟨Or.inl (by simp [hcnt_eq]), by simp [hoda_eq], by simp [hcnt_eq]⟩

/-- Witness for C7: announcing application 0x4BD7 on group 11A from
the zero state appends one entry. -/
theorem c7_oda_announce_updates_or_appends_witness :
    (rds_decoder_decode cfg0 rdsDataZero c7_group).oda_cnt = 1 ∧
    ((rds_decoder_decode cfg0 rdsDataZero c7_group).oda.getD 0 odaEntryZero).id = 0x4BD7 ∧
    ((rds_decoder_decode cfg0 rdsDataZero c7_group).oda.getD 0 odaEntryZero).gt =
      { code := 11, version := 'A' } := by
  have h := (c7_oda_announce_updates_or_appends cfg0 rdsDataZero c7_group
    (by decide) (by decide) (by decide) (by decide) (by decide) (by decide) (by decide)).2
  rw [show odaFindIdIdx rdsDataZero.oda rdsDataZero.oda_cnt c7_group.d.val = none from by decide]
    at h
  rw [if_pos (show rdsDataZero.oda_cnt < 10 from by decide)] at h
  exact ⟨h.1, h.2.1, h.2.2⟩

theorem af_table_step_refl (tb : rds_af_table) : af_table_step tb tb :=
  ⟨le_refl _, rfl, fun h => h, fun h => h⟩

theorem af_table_step_trans (a b c : rds_af_table)
    (h1 : af_table_step a b) (h2 : af_table_step b c) : af_table_step a c :=
  ⟨le_trans h1.1 h2.1, h2.2.1.trans h1.2.1,
   fun h => h2.2.2.1 (h1.2.2.1 h), fun h => h2.2.2.2 (h1.2.2.2 h)⟩

theorem af_table_step_of_eq (a b : rds_af_table) (h : b = a) : af_table_step a b := by
  rw [h]; exact af_table_step_refl a

theorem freq_in_af_table_false (tb : rds_af_table) (f : rds_freq)
    (h : freq_in_af_table tb f = false) :
    ∀ k, k < tb.count → freq_eq (tb.entry.getD k freqZero) f = false := by
  intro k hk
  unfold freq_in_af_table find_af_freq_idx at h
  rcases hfind : (List.range tb.count).find?
      (fun i => freq_eq (tb.entry.getD i freqZero) f) with _ | i
  · have := List.find?_eq_none.mp hfind k (List.mem_range.mpr hk)
    simpa using this
  · rw [hfind] at h
    simp at h

theorem insert_alt_freq_step (tb : rds_af_table) (f : rds_freq) :
    af_table_step tb (insert_alt_freq tb f).2 := by
  rw [insert_alt_freq]
  split
  · exact af_table_step_refl _
  · split
    · exact af_table_step_refl _
    · rename_i hfull hin
      refine ⟨by simp, by simp, by intro h; simp; omega, ?_⟩
      rintro ⟨hc, hl, hnd⟩
      have hcl : tb.count < tb.entry.length := by
        rw [hl]; omega
      refine ⟨by simpa using by omega, by simpa using hl, ?_⟩
      rw [af_table_nodup, List.pairwise_iff_getElem]
      intro i j hi hj hij
      have hlen' : ((tb.entry.set tb.count f).take (tb.count + 1)).length = tb.count + 1 := by
        simp [hl]
        omega
      rw [hlen'] at hi hj
      have hin' := freq_in_af_table_false tb f (by simpa using hin)
      rcases Nat.lt_or_ge j tb.count with hjc | hjc
      · -- both below count: old entries, old nodup
        have hnd' := hnd
        rw [af_table_nodup, List.pairwise_iff_getElem] at hnd'
        have hlen'' : (tb.entry.take tb.count).length = tb.count := by
          simp [hl]
          omega
        have := hnd' i j (by omega) (by omega) hij
        · convert this using 2 <;>
          · rw [List.getElem_take, List.getElem_take, List.getElem_set_ne]; omega
      · -- j = count: new element f against old entry i
        have hj' : j = tb.count := by omega
        subst hj'
        have hbi : i < tb.entry.length := by omega
        have hb2 : tb.count < ((tb.entry.set tb.count f).take (tb.count + 1)).length := by
          rw [hlen']; omega
        have e1 : ((tb.entry.set tb.count f).take (tb.count + 1))[i] =
            tb.entry[i] := by
          rw [List.getElem_take, List.getElem_set_ne]; omega
        have e2 : ((tb.entry.set tb.count f).take (tb.count + 1))[tb.count] = f := by
          rw [List.getElem_take, List.getElem_set_self (by simp [hl]; omega)]
        rw [e1, e2]
        have := hin' i (by omega)
        rwa [List.getD_eq_getElem?_getD, List.getElem?_eq_getElem (by omega)] at this

theorem dec_af_expected_count_table (t : rds_af_decode_table) :
    (dec_af_expected_count t).table = t.table := by
  rw [dec_af_expected_count]
  split <;> rfl

theorem handle_freq_code_table (t : rds_af_decode_table) (c : Nat) :
    (handle_freq_code t c).2.table = t.table := by
  rw [handle_freq_code]
  split_ifs <;> cases hfc : freq_code_is_freq c <;> simp [hfc, dec_af_expected_count_table]

theorem add_alt_freq_table (t : rds_af_decode_table) (f : rds_freq) :
    (add_alt_freq t f).table = (insert_alt_freq t.table f).2 := by
  rw [add_alt_freq]
  rw [show (dec_af_expected_count t).table = t.table from dec_af_expected_count_table t]

theorem add_alt_freq_step (t : rds_af_decode_table) (f : rds_freq) :
    af_table_step t.table (add_alt_freq t f).table := by
  rw [add_alt_freq_table]
  exact insert_alt_freq_step t.table f

theorem decode_freq_table_start_block_step (t : rds_af_decode_table) (n sb : Nat) :
    af_table_step t.table (decode_freq_table_start_block t n sb).table := by
  rw [decode_freq_table_start_block]
  split <;> split
  · rw [handle_freq_code_table]
    exact af_table_step_refl _
  · refine af_table_step_trans _ _ _ ?_ (add_alt_freq_step _ _)
    rw [handle_freq_code_table]
    exact af_table_step_refl _
  · rw [handle_freq_code_table]
    exact af_table_step_refl _
  · refine af_table_step_trans _ _ _ ?_ (add_alt_freq_step _ _)
    rw [handle_freq_code_table]
    exact af_table_step_refl _

theorem tuned_freq_set_step (tb : rds_af_table) (x : rds_freq) :
    af_table_step tb { tb with tuned_freq := x } := by
  refine ⟨le_refl _, rfl, fun h => h, ?_⟩
  rintro ⟨a, b, c⟩
  exact ⟨a, b, c⟩


theorem decode_freq_table_nth_block_emit_step (t : rds_af_decode_table)
    (b1 b2 : Bool) (F1 F2 : rds_freq) :
    af_table_step t.table (decode_freq_table_nth_block_emit t b1 b2 F1 F2).table := by
  rw [decode_freq_table_nth_block_emit]
  split
  · -- method A
    split
    · split
      · exact af_table_step_trans _ _ _
          (add_alt_freq_step { t with pvt_prev_enc_method := t.enc_method } F1)
          (add_alt_freq_step _ F2)
      · exact add_alt_freq_step { t with pvt_prev_enc_method := t.enc_method } F1
    · split
      · exact add_alt_freq_step { t with pvt_prev_enc_method := t.enc_method } F2
      · exact af_table_step_refl _
  · -- method B
    split
    · exact af_table_step_refl _
    · split
      · exact add_alt_freq_step { t with pvt_prev_enc_method := t.enc_method } _
      · split
        · exact add_alt_freq_step { t with pvt_prev_enc_method := t.enc_method } _
        · exact af_table_step_refl _

theorem decode_freq_table_nth_block_step (t : rds_af_decode_table) (f1 f2 : Nat) :
    af_table_step t.table (decode_freq_table_nth_block t f1 f2).table := by
  have e2 : (handle_freq_code (handle_freq_code t f1).2 f2).2.table = t.table := by
    rw [handle_freq_code_table, handle_freq_code_table]
  rw [decode_freq_table_nth_block]
  split
  · exact af_table_step_refl _
  dsimp only
  split
  · exact af_table_step_of_eq _ _ e2
  · rename_i tb htb
    refine af_table_step_trans _ tb.table _ ?_
      (decode_freq_table_nth_block_emit_step _ _ _ _ _)
    split at htb
    · cases htb
      exact af_table_step_of_eq _ _ e2
    · split at htb
      · cases htb
      · split at htb
        · cases htb
          exact af_table_step_of_eq _ _ e2
        · split at htb
          · cases htb
            exact af_table_step_of_eq _ _ e2
          · split at htb
            · cases htb
              refine af_table_step_trans _ _ _ (af_table_step_of_eq _ _ e2) ?_
              exact af_table_step_trans _ _ _
                (add_alt_freq_step { (handle_freq_code (handle_freq_code t f1).2 f2).2 with
                    enc_method := rds_af_encoding.A }
                  (handle_freq_code (handle_freq_code t f1).2 f2).2.table.tuned_freq)
                (tuned_freq_set_step
                  ((add_alt_freq { (handle_freq_code (handle_freq_code t f1).2 f2).2 with
                      enc_method := rds_af_encoding.A }
                    (handle_freq_code (handle_freq_code t f1).2 f2).2.table.tuned_freq).table)
                  freqZero)
            · cases htb
              exact af_table_step_of_eq _ _ e2

theorem af_table_wf_zero : af_table_wf afDecodeTableZero.table := by
  refine ⟨by simp [afDecodeTableZero], by simp [afDecodeTableZero], ?_⟩
  simp [af_table_nodup, afDecodeTableZero]

theorem af_group_step_refl (g : rds_af_table_group) : af_group_step g g :=
  ⟨le_refl _, rfl, fun h => h, fun _ => af_table_step_refl _, fun h => h⟩

theorem af_group_step_trans (a b c : rds_af_table_group)
    (h1 : af_group_step a b) (h2 : af_group_step b c) : af_group_step a c :=
  ⟨le_trans h1.1 h2.1, h2.2.1.trans h1.2.1, fun h => h2.2.2.1 (h1.2.2.1 h),
   fun i => af_table_step_trans _ _ _ (h1.2.2.2.1 i) (h2.2.2.2.1 i),
   fun h => h2.2.2.2.2 (h1.2.2.2.2 h)⟩

theorem af_group_step_of_eq (a b : rds_af_table_group) (h : b = a) : af_group_step a b := by
  rw [h]; exact af_group_step_refl a

/-- Setting only the current-table index is a group step. -/
theorem af_group_step_idx (g : rds_af_table_group) (v : Int) :
    af_group_step g { g with pvt_current_table_idx := v } := by
  refine ⟨le_refl _, rfl, fun h => h, fun _ => af_table_step_refl _, ?_⟩
  rintro ⟨a, b, c⟩
  exact ⟨a, b, c⟩

theorem tablesModify_group_step (g : rds_af_table_group) (i : Nat)
    (f : rds_af_decode_table → rds_af_decode_table)
    (hf : ∀ t, af_table_step t.table (f t).table) :
    af_group_step g { g with table := tablesModify g.table i f } := by
  refine ⟨le_refl _, by simp [tablesModify], fun h => h, ?_, ?_⟩
  · intro j
    by_cases hij : j = i
    · subst hij
      by_cases hlt : j < g.table.length
      · have : (tablesModify g.table j f).getD j afDecodeTableZero =
            f (g.table.getD j afDecodeTableZero) := by
          rw [tablesModify]
          rw [List.getD_eq_getElem?_getD, List.getElem?_set_self (by simpa using hlt)]
          rfl
        rw [this]
        exact hf _
      · have : tablesModify g.table j f = g.table := by
          rw [tablesModify]
          exact List.set_eq_of_length_le (by omega)
        rw [this]
        exact af_table_step_refl _
    · have : (tablesModify g.table i f).getD j afDecodeTableZero =
          g.table.getD j afDecodeTableZero := by
        rw [tablesModify]
        rw [List.getD_eq_getElem?_getD, List.getElem?_set_ne (by omega),
          List.getD_eq_getElem?_getD]
      rw [this]
      exact af_table_step_refl _
  · rintro ⟨hc, hl, hall⟩
    refine ⟨hc, by simp [tablesModify, hl], ?_⟩
    intro t ht
    rw [tablesModify] at ht
    rcases List.mem_or_eq_of_mem_set ht with h | h
    · exact hall t h
    · subst h
      by_cases hlt : i < g.table.length
      · refine (hf _).2.2.2 ?_
        have : g.table.getD i afDecodeTableZero ∈ g.table := by
          rw [List.getD_eq_getElem?_getD, List.getElem?_eq_getElem hlt]
          exact List.getElem_mem hlt
        exact hall _ this
      · refine (hf _).2.2.2 ?_
        rw [List.getD_eq_getElem?_getD, List.getElem?_eq_none (by omega)]
        exact af_table_wf_zero

/-- Allocating a new table slot (guarded by count ≠ 20) is a group step. -/
theorem af_group_step_alloc (g : rds_af_table_group) (h20 : g.count ≠ 20) (v : Int) :
    af_group_step g { g with pvt_current_table_idx := v, count := g.count + 1 } := by
  refine ⟨by simp, rfl, ?_, fun _ => af_table_step_refl _, ?_⟩
  · intro h
    simp
    omega
  · rintro ⟨a, b, c⟩
    refine ⟨?_, b, c⟩
    simp
    omega

theorem decode_af_start_block_step (g : rds_af_table_group) (n sb : Nat) :
    af_group_step g (decode_af_start_block g n sb) := by
  have hstart : ∀ t, af_table_step t.table (decode_freq_table_start_block t n sb).table :=
    fun t => decode_freq_table_start_block_step t n sb
  have hwriter : ∀ (em : rds_af_encoding) (freq : rds_freq) (t : rds_af_decode_table),
      af_table_step t.table
        ((fun (t : rds_af_decode_table) =>
          let t := { t with enc_method := em }
          if t.enc_method = rds_af_encoding.UNKNOWN then
            { t with table := { t.table with tuned_freq := freq } }
          else t) t).table := by
    intro em freq t
    dsimp only
    split
    · exact tuned_freq_set_step _ _
    · exact af_table_step_refl _
  rw [decode_af_start_block]
  dsimp only
  simp only [decode_af_start_block.tablesModify']
  by_cases hC1 : g.count = 1 ∧
      (g.table.getD 0 afDecodeTableZero).enc_method = rds_af_encoding.A
  all_goals by_cases hC2 : n = 1
  · rw [if_pos hC1, if_pos hC2]
    dsimp only
    rw [if_neg (show ¬((0 : Int) = -1) from by decide)]
    exact af_group_step_trans _ _ _ (af_group_step_idx _ _)
      (tablesModify_group_step _ _ _ hstart)
  · rw [if_pos hC1, if_neg hC2]
    dsimp only
    rw [if_neg (show ¬((0 : Int) = -1) from by decide)]
    exact af_group_step_trans _ _ _ (af_group_step_idx _ _)
      (tablesModify_group_step _ _ _ hstart)
  · rw [if_neg hC1, if_pos hC2]
    dsimp only
    rw [if_neg (show ¬((0 : Int) = -1) from by decide)]
    exact af_group_step_trans _ _ _ (af_group_step_idx _ _)
      (tablesModify_group_step _ _ _ hstart)
  · rw [if_neg hC1, if_neg hC2]
    dsimp only
    rw [if_pos (show ((-1 : Int) = -1) from rfl)]
    split
    · exact af_group_step_idx _ _
    · rename_i g2 heq
      refine af_group_step_trans _ g2 _ ?_ (tablesModify_group_step _ _ _ hstart)
      split at heq
      · split at heq
        · cases heq
        · cases heq
          rename_i hc
          exact af_group_step_trans _ _ _ (af_group_step_alloc g hc _)
            (tablesModify_group_step _ _ _ (hwriter _ _))
      · cases heq
        exact af_group_step_idx _ _

theorem decode_af_nth_block_step (g : rds_af_table_group) (f1 f2 : Nat) :
    af_group_step g (decode_af_nth_block g f1 f2) := by
  rw [decode_af_nth_block]
  split
  · exact af_group_step_refl _
  · exact tablesModify_group_step _ _ _ (fun t => decode_freq_table_nth_block_step t f1 f2)

theorem decode_freq_group_block_step (g : rds_af_table_group) (block : Nat) :
    af_group_step g (decode_freq_group_block g block) := by
  rw [decode_freq_group_block]
  split
  · exact decode_af_start_block_step _ _ _
  · exact decode_af_nth_block_step _ _ _

@[simp] theorem decode_ta_af (rds : rds_data) (block : rds_block) :
    (decode_ta rds block).af = rds.af := rfl

@[simp] theorem decode_ta_eon (rds : rds_data) (block : rds_block) :
    (decode_ta rds block).eon = rds.eon := rfl

@[simp] theorem decode_ms_af (rds : rds_data) (block : rds_block) :
    (decode_ms rds block).af = rds.af := rfl

@[simp] theorem decode_ms_eon (rds : rds_data) (block : rds_block) :
    (decode_ms rds block).eon = rds.eon := rfl

@[simp] theorem update_ps_simple_af (rds : rds_data) (i b : Nat) :
    (update_ps_simple rds i b).af = rds.af := by
  rw [update_ps_simple]; split <;> rfl

@[simp] theorem update_ps_simple_eon (rds : rds_data) (i b : Nat) :
    (update_ps_simple rds i b).eon = rds.eon := by
  rw [update_ps_simple]; split <;> rfl

@[simp] theorem update_ps_advanced_af (rds : rds_data) (i b : Nat) :
    (update_ps_advanced rds i b).af = rds.af := by
  rw [update_ps_advanced]
  split
  · rfl
  · dsimp only
    repeat' split
    all_goals rfl

@[simp] theorem update_ps_advanced_eon (rds : rds_data) (i b : Nat) :
    (update_ps_advanced rds i b).eon = rds.eon := by
  rw [update_ps_advanced]
  split
  · rfl
  · dsimp only
    repeat' split
    all_goals rfl

@[simp] theorem decode_alt_freq_eon (rds : rds_data) (blocks : rds_blocks) :
    (decode_alt_freq rds blocks).eon = rds.eon := by
  rw [decode_alt_freq]; split <;> rfl

theorem decode_alt_freq_af_step (rds : rds_data) (blocks : rds_blocks) :
    af_group_step rds.af (decode_alt_freq rds blocks).af := by
  rw [decode_alt_freq]
  split
  · exact af_group_step_refl _
  · exact decode_freq_group_block_step _ _

@[simp] theorem decode_slow_labelling_codes_af (rds : rds_data) (blocks : rds_blocks) :
    (decode_slow_labelling_codes rds blocks).af = rds.af := by
  rw [decode_slow_labelling_codes]
  repeat' split
  all_goals simp

@[simp] theorem decode_slow_labelling_codes_eon (rds : rds_data) (blocks : rds_blocks) :
    (decode_slow_labelling_codes rds blocks).eon = rds.eon := by
  rw [decode_slow_labelling_codes]
  repeat' split
  all_goals simp

@[simp] theorem decode_oda_af (rds : rds_data) (gt : rds_group_type) :
    (decode_oda rds gt).af = rds.af := by
  rw [decode_oda]
  repeat' split
  all_goals simp

@[simp] theorem decode_oda_eon (rds : rds_data) (gt : rds_group_type) :
    (decode_oda rds gt).eon = rds.eon := by
  rw [decode_oda]
  repeat' split
  all_goals simp

@[simp] theorem update_clock_af (rds : rds_data) (blocks : rds_blocks) :
    (update_clock rds blocks).af = rds.af := by
  rw [update_clock]
  repeat' split
  all_goals simp

@[simp] theorem update_clock_eon (rds : rds_data) (blocks : rds_blocks) :
    (update_clock rds blocks).eon = rds.eon := by
  rw [update_clock]
  repeat' split
  all_goals simp

@[simp] theorem decode_tdc_block_af (rds : rds_data) (block : rds_block) :
    (decode_tdc_block rds block).af = rds.af := by
  rw [decode_tdc_block]
  repeat' split
  all_goals simp

@[simp] theorem decode_tdc_block_eon (rds : rds_data) (block : rds_block) :
    (decode_tdc_block rds block).eon = rds.eon := by
  rw [decode_tdc_block]
  repeat' split
  all_goals simp

@[simp] theorem decode_in_house_data_af (rds : rds_data) :
    (decode_in_house_data rds).af = rds.af := by
  rw [decode_in_house_data]
  repeat' split
  all_goals simp

@[simp] theorem decode_in_house_data_eon (rds : rds_data) :
    (decode_in_house_data rds).eon = rds.eon := by
  rw [decode_in_house_data]
  repeat' split
  all_goals simp

@[simp] theorem decode_radio_paging_af (rds : rds_data) :
    (decode_radio_paging rds).af = rds.af := by
  rw [decode_radio_paging]
  repeat' split
  all_goals simp

@[simp] theorem decode_radio_paging_eon (rds : rds_data) :
    (decode_radio_paging rds).eon = rds.eon := by
  rw [decode_radio_paging]
  repeat' split
  all_goals simp

@[simp] theorem decode_tmc_af (rds : rds_data) :
    (decode_tmc rds).af = rds.af := by
  rw [decode_tmc]
  repeat' split
  all_goals simp

@[simp] theorem decode_tmc_eon (rds : rds_data) :
    (decode_tmc rds).eon = rds.eon := by
  rw [decode_tmc]
  repeat' split
  all_goals simp

@[simp] theorem decode_ews_af (rds : rds_data) (blocks : rds_blocks) :
    (decode_ews rds blocks).af = rds.af := by
  rw [decode_ews]
  repeat' split
  all_goals simp

@[simp] theorem decode_ews_eon (rds : rds_data) (blocks : rds_blocks) :
    (decode_ews rds blocks).eon = rds.eon := by
  rw [decode_ews]
  repeat' split
  all_goals simp

@[simp] theorem update_ptyn_af (rds : rds_data) (i ch : Nat) :
    (update_ptyn rds i ch).af = rds.af := by
  rw [update_ptyn]
  repeat' split
  all_goals simp

@[simp] theorem update_ptyn_eon (rds : rds_data) (i ch : Nat) :
    (update_ptyn rds i ch).eon = rds.eon := by
  rw [update_ptyn]
  repeat' split
  all_goals simp

@[simp] theorem decode_fast_basic_tuning_af (rds : rds_data) :
    (decode_fast_basic_tuning rds).af = rds.af := by
  rw [decode_fast_basic_tuning]
  repeat' split
  all_goals simp

@[simp] theorem decode_fast_basic_tuning_eon (rds : rds_data) :
    (decode_fast_basic_tuning rds).eon = rds.eon := by
  rw [decode_fast_basic_tuning]
  repeat' split
  all_goals simp

@[simp] theorem decode_group_type_1_af (rds : rds_data) (gt : rds_group_type) (blocks : rds_blocks) :
    (decode_group_type_1 rds gt blocks).af = rds.af := by
  rw [decode_group_type_1]
  repeat' split
  all_goals simp

@[simp] theorem decode_group_type_1_eon (rds : rds_data) (gt : rds_group_type) (blocks : rds_blocks) :
    (decode_group_type_1 rds gt blocks).eon = rds.eon := by
  rw [decode_group_type_1]
  repeat' split
  all_goals simp

@[simp] theorem decode_group_type_2_af (rds : rds_data) (gt : rds_group_type) (blocks : rds_blocks) :
    (decode_group_type_2 rds gt blocks).af = rds.af := by
  rw [decode_group_type_2]
  repeat' split
  all_goals simp

@[simp] theorem decode_group_type_2_eon (rds : rds_data) (gt : rds_group_type) (blocks : rds_blocks) :
    (decode_group_type_2 rds gt blocks).eon = rds.eon := by
  rw [decode_group_type_2]
  repeat' split
  all_goals simp

@[simp] theorem decode_group_type_3_af (rds : rds_data) (gt : rds_group_type) (blocks : rds_blocks) :
    (decode_group_type_3 rds gt blocks).af = rds.af := by
  rw [decode_group_type_3]
  repeat' split
  all_goals (try dsimp only)
  all_goals (repeat' split)
  all_goals simp

@[simp] theorem decode_group_type_3_eon (rds : rds_data) (gt : rds_group_type) (blocks : rds_blocks) :
    (decode_group_type_3 rds gt blocks).eon = rds.eon := by
  rw [decode_group_type_3]
  repeat' split
  all_goals (try dsimp only)
  all_goals (repeat' split)
  all_goals simp

@[simp] theorem decode_group_type_4_af (rds : rds_data) (gt : rds_group_type) (blocks : rds_blocks) :
    (decode_group_type_4 rds gt blocks).af = rds.af := by
  rw [decode_group_type_4]
  repeat' split
  all_goals simp

@[simp] theorem decode_group_type_4_eon (rds : rds_data) (gt : rds_group_type) (blocks : rds_blocks) :
    (decode_group_type_4 rds gt blocks).eon = rds.eon := by
  rw [decode_group_type_4]
  repeat' split
  all_goals simp

@[simp] theorem decode_group_type_5_af (rds : rds_data) (gt : rds_group_type) (blocks : rds_blocks) :
    (decode_group_type_5 rds gt blocks).af = rds.af := by
  rw [decode_group_type_5]
  repeat' split
  all_goals simp

@[simp] theorem decode_group_type_5_eon (rds : rds_data) (gt : rds_group_type) (blocks : rds_blocks) :
    (decode_group_type_5 rds gt blocks).eon = rds.eon := by
  rw [decode_group_type_5]
  repeat' split
  all_goals simp

@[simp] theorem decode_group_type_6_af (rds : rds_data) (gt : rds_group_type) :
    (decode_group_type_6 rds gt).af = rds.af := by
  rw [decode_group_type_6]
  repeat' split
  all_goals simp

@[simp] theorem decode_group_type_6_eon (rds : rds_data) (gt : rds_group_type) :
    (decode_group_type_6 rds gt).eon = rds.eon := by
  rw [decode_group_type_6]
  repeat' split
  all_goals simp

@[simp] theorem decode_group_type_7_af (rds : rds_data) (gt : rds_group_type) :
    (decode_group_type_7 rds gt).af = rds.af := by
  rw [decode_group_type_7]
  repeat' split
  all_goals simp

@[simp] theorem decode_group_type_7_eon (rds : rds_data) (gt : rds_group_type) :
    (decode_group_type_7 rds gt).eon = rds.eon := by
  rw [decode_group_type_7]
  repeat' split
  all_goals simp

@[simp] theorem decode_group_type_8_af (rds : rds_data) (gt : rds_group_type) :
    (decode_group_type_8 rds gt).af = rds.af := by
  rw [decode_group_type_8]
  repeat' split
  all_goals simp

@[simp] theorem decode_group_type_8_eon (rds : rds_data) (gt : rds_group_type) :
    (decode_group_type_8 rds gt).eon = rds.eon := by
  rw [decode_group_type_8]
  repeat' split
  all_goals simp

@[simp] theorem decode_group_type_9_af (rds : rds_data) (gt : rds_group_type) (blocks : rds_blocks) :
    (decode_group_type_9 rds gt blocks).af = rds.af := by
  rw [decode_group_type_9]
  repeat' split
  all_goals simp

@[simp] theorem decode_group_type_9_eon (rds : rds_data) (gt : rds_group_type) (blocks : rds_blocks) :
    (decode_group_type_9 rds gt blocks).eon = rds.eon := by
  rw [decode_group_type_9]
  repeat' split
  all_goals simp

@[simp] theorem decode_ptyn_af (rds : rds_data) (blocks : rds_blocks) :
    (decode_ptyn rds blocks).af = rds.af := by
  rw [decode_ptyn]
  repeat' split
  all_goals simp

@[simp] theorem decode_ptyn_eon (rds : rds_data) (blocks : rds_blocks) :
    (decode_ptyn rds blocks).eon = rds.eon := by
  rw [decode_ptyn]
  repeat' split
  all_goals simp

@[simp] theorem decode_group_type_10_af (rds : rds_data) (gt : rds_group_type) (blocks : rds_blocks) :
    (decode_group_type_10 rds gt blocks).af = rds.af := by
  rw [decode_group_type_10]
  repeat' split
  all_goals simp

@[simp] theorem decode_group_type_10_eon (rds : rds_data) (gt : rds_group_type) (blocks : rds_blocks) :
    (decode_group_type_10 rds gt blocks).eon = rds.eon := by
  rw [decode_group_type_10]
  repeat' split
  all_goals simp

@[simp] theorem decode_group_type_15_af (rds : rds_data) (gt : rds_group_type) (blocks : rds_blocks) :
    (decode_group_type_15 rds gt blocks).af = rds.af := by
  rw [decode_group_type_15]
  repeat' split
  all_goals simp

@[simp] theorem decode_group_type_15_eon (rds : rds_data) (gt : rds_group_type) (blocks : rds_blocks) :
    (decode_group_type_15 rds gt blocks).eon = rds.eon := by
  rw [decode_group_type_15]
  repeat' split
  all_goals simp

theorem decode_group_type_0_af_step (decoder : rds_decoder) (rds : rds_data)
    (gt : rds_group_type) (blocks : rds_blocks) :
    af_group_step rds.af (decode_group_type_0 decoder rds gt blocks).af := by
  rw [decode_group_type_0]
  have h1 : af_group_step rds.af
      (if gt.version = 'A' then decode_alt_freq rds blocks else rds).af := by
    split
    · exact decode_alt_freq_af_step rds blocks
    · exact af_group_step_refl _
  dsimp only
  split
  · exact h1
  · simp only [statsBumpCount_af]
    split <;>
      (simp only [update_ps_advanced_af, update_ps_simple_af, decode_ms_af, decode_ta_af]
       exact h1)

@[simp] theorem decode_group_type_0_eon (decoder : rds_decoder) (rds : rds_data)
    (gt : rds_group_type) (blocks : rds_blocks) :
    (decode_group_type_0 decoder rds gt blocks).eon = rds.eon := by
  rw [decode_group_type_0]
  repeat' split
  all_goals (try dsimp only)
  all_goals (repeat' split)
  all_goals simp

@[simp] theorem decode_eon_block_a_af (rds : rds_data) (blocks : rds_blocks) :
    (decode_eon_block_a rds blocks).af = rds.af := by
  rw [decode_eon_block_a]
  repeat' split
  all_goals (try dsimp only)
  all_goals (repeat' split)
  all_goals simp

theorem decode_eon_block_a_eon_step (rds : rds_data) (blocks : rds_blocks) :
    af_table_step rds.eon.on_.af.table
      (decode_eon_block_a rds blocks).eon.on_.af.table := by
  rw [decode_eon_block_a]
  repeat' split
  all_goals (try dsimp only)
  all_goals (repeat' split)
  all_goals first
    | exact af_table_step_refl _
    | exact decode_freq_table_start_block_step _ _ _
    | exact decode_freq_table_nth_block_step _ _ _

@[simp] theorem decode_group_type_14_af (rds : rds_data) (gt : rds_group_type)
    (blocks : rds_blocks) :
    (decode_group_type_14 rds gt blocks).af = rds.af := by
  rw [decode_group_type_14]
  repeat' split
  all_goals (try dsimp only)
  all_goals (repeat' split)
  all_goals simp

theorem decode_group_type_14_eon_step (rds : rds_data) (gt : rds_group_type)
    (blocks : rds_blocks) :
    af_table_step rds.eon.on_.af.table
      (decode_group_type_14 rds gt blocks).eon.on_.af.table := by
  rw [decode_group_type_14]
  dsimp only
  have key : ∀ r : rds_data, r.eon = rds.eon →
      af_table_step rds.eon.on_.af.table
        (decode_eon_block_a r blocks).eon.on_.af.table := by
    intro r hr
    have h := decode_eon_block_a_eon_step r blocks
    rw [hr] at h
    exact h
  split
  · exact key _ (by simp)
  · split
    · exact af_table_step_of_eq _ _ (by simp)
    · exact af_table_step_of_eq _ _ (by simp)

theorem rds_prop_ite (c : Prop) [Decidable c] (P : rds_data → Prop)
    (a b : rds_data) (ha : P a) (hb : P b) : P (if c then a else b) := by
  by_cases h : c
  · rwa [if_pos h]
  · rwa [if_neg h]

theorem decode_dispatch_af_step (decoder : rds_decoder) (rds : rds_data)
    (gt : rds_group_type) (blocks : rds_blocks) :
    af_group_step rds.af (decode_dispatch decoder rds gt blocks).af := by
  rw [decode_dispatch]
  refine rds_prop_ite _ (fun r => af_group_step rds.af r.af) _ _ (decode_group_type_0_af_step decoder rds gt blocks) ?_
  refine rds_prop_ite _ (fun r => af_group_step rds.af r.af) _ _ (af_group_step_of_eq _ _ (by simp)) ?_
  refine rds_prop_ite _ (fun r => af_group_step rds.af r.af) _ _ (af_group_step_of_eq _ _ (by simp)) ?_
  refine rds_prop_ite _ (fun r => af_group_step rds.af r.af) _ _ (af_group_step_of_eq _ _ (by simp)) ?_
  refine rds_prop_ite _ (fun r => af_group_step rds.af r.af) _ _ (af_group_step_of_eq _ _ (by simp)) ?_
  refine rds_prop_ite _ (fun r => af_group_step rds.af r.af) _ _ (af_group_step_of_eq _ _ (by simp)) ?_
  refine rds_prop_ite _ (fun r => af_group_step rds.af r.af) _ _ (af_group_step_of_eq _ _ (by simp)) ?_
  refine rds_prop_ite _ (fun r => af_group_step rds.af r.af) _ _ (af_group_step_of_eq _ _ (by simp)) ?_
  refine rds_prop_ite _ (fun r => af_group_step rds.af r.af) _ _ (af_group_step_of_eq _ _ (by simp)) ?_
  refine rds_prop_ite _ (fun r => af_group_step rds.af r.af) _ _ (af_group_step_of_eq _ _ (by simp)) ?_
  refine rds_prop_ite _ (fun r => af_group_step rds.af r.af) _ _ (af_group_step_of_eq _ _ (by simp)) ?_
  refine rds_prop_ite _ (fun r => af_group_step rds.af r.af) _ _ (af_group_step_of_eq _ _ (by simp)) ?_
  refine rds_prop_ite _ (fun r => af_group_step rds.af r.af) _ _ (af_group_step_of_eq _ _ (by simp)) ?_
  refine rds_prop_ite _ (fun r => af_group_step rds.af r.af) _ _ (af_group_step_of_eq _ _ (by simp)) ?_
  refine rds_prop_ite _ (fun r => af_group_step rds.af r.af) _ _ (af_group_step_of_eq _ _ (by simp)) ?_
  refine rds_prop_ite _ (fun r => af_group_step rds.af r.af) _ _ (af_group_step_of_eq _ _ (by simp)) ?_
  exact af_group_step_refl _

theorem decode_dispatch_eon_step (decoder : rds_decoder) (rds : rds_data)
    (gt : rds_group_type) (blocks : rds_blocks) :
    af_table_step rds.eon.on_.af.table
      (decode_dispatch decoder rds gt blocks).eon.on_.af.table := by
  rw [decode_dispatch]
  refine rds_prop_ite _ (fun r => af_table_step rds.eon.on_.af.table r.eon.on_.af.table) _ _ (af_table_step_of_eq _ _ (by simp)) ?_
  refine rds_prop_ite _ (fun r => af_table_step rds.eon.on_.af.table r.eon.on_.af.table) _ _ (af_table_step_of_eq _ _ (by simp)) ?_
  refine rds_prop_ite _ (fun r => af_table_step rds.eon.on_.af.table r.eon.on_.af.table) _ _ (af_table_step_of_eq _ _ (by simp)) ?_
  refine rds_prop_ite _ (fun r => af_table_step rds.eon.on_.af.table r.eon.on_.af.table) _ _ (af_table_step_of_eq _ _ (by simp)) ?_
  refine rds_prop_ite _ (fun r => af_table_step rds.eon.on_.af.table r.eon.on_.af.table) _ _ (af_table_step_of_eq _ _ (by simp)) ?_
  refine rds_prop_ite _ (fun r => af_table_step rds.eon.on_.af.table r.eon.on_.af.table) _ _ (af_table_step_of_eq _ _ (by simp)) ?_
  refine rds_prop_ite _ (fun r => af_table_step rds.eon.on_.af.table r.eon.on_.af.table) _ _ (af_table_step_of_eq _ _ (by simp)) ?_
  refine rds_prop_ite _ (fun r => af_table_step rds.eon.on_.af.table r.eon.on_.af.table) _ _ (af_table_step_of_eq _ _ (by simp)) ?_
  refine rds_prop_ite _ (fun r => af_table_step rds.eon.on_.af.table r.eon.on_.af.table) _ _ (af_table_step_of_eq _ _ (by simp)) ?_
  refine rds_prop_ite _ (fun r => af_table_step rds.eon.on_.af.table r.eon.on_.af.table) _ _ (af_table_step_of_eq _ _ (by simp)) ?_
  refine rds_prop_ite _ (fun r => af_table_step rds.eon.on_.af.table r.eon.on_.af.table) _ _ (af_table_step_of_eq _ _ (by simp)) ?_
  refine rds_prop_ite _ (fun r => af_table_step rds.eon.on_.af.table r.eon.on_.af.table) _ _ (af_table_step_of_eq _ _ (by simp)) ?_
  refine rds_prop_ite _ (fun r => af_table_step rds.eon.on_.af.table r.eon.on_.af.table) _ _ (af_table_step_of_eq _ _ (by simp)) ?_
  refine rds_prop_ite _ (fun r => af_table_step rds.eon.on_.af.table r.eon.on_.af.table) _ _ (af_table_step_of_eq _ _ (by simp)) ?_
  refine rds_prop_ite _ (fun r => af_table_step rds.eon.on_.af.table r.eon.on_.af.table) _ _ (decode_group_type_14_eon_step rds gt blocks) ?_
  refine rds_prop_ite _ (fun r => af_table_step rds.eon.on_.af.table r.eon.on_.af.table) _ _ (af_table_step_of_eq _ _ (by simp)) ?_
  exact af_table_step_refl _

theorem rds_decoder_decode_af_state (decoder : rds_decoder) (rds : rds_data)
    (blocks : rds_blocks) :
    af_group_step rds.af (rds_decoder_decode decoder rds blocks).af ∧
      af_table_step rds.eon.on_.af.table
        (rds_decoder_decode decoder rds blocks).eon.on_.af.table := by
  rw [rds_decoder_decode]
  dsimp only
  split
  · exact ⟨af_group_step_of_eq _ _ (by simp),
      af_table_step_of_eq _ _ (by simp)⟩
  · have key : ∀ (g : rds_group_type) (r : rds_data), r.af = rds.af →
        r.eon = rds.eon →
        af_group_step rds.af (decode_dispatch decoder r g blocks).af ∧
          af_table_step rds.eon.on_.af.table
            (decode_dispatch decoder r g blocks).eon.on_.af.table := by
      intro g r h1 h2
      have ha := decode_dispatch_af_step decoder r g blocks
      have hb := decode_dispatch_eon_step decoder r g blocks
      rw [h1] at ha
      rw [h2] at hb
      exact ⟨ha, hb⟩
    exact key _ _ (by simp) (by simp)

theorem decode_foldl_af_state (decoder : rds_decoder) (gs : List rds_blocks)
    (s : rds_data) :
    af_group_step s.af
      (gs.foldl (fun r g => rds_decoder_decode decoder r g) s).af ∧
      af_table_step s.eon.on_.af.table
        (gs.foldl (fun r g => rds_decoder_decode decoder r g) s).eon.on_.af.table := by
  induction gs generalizing s with
  | nil => exact ⟨af_group_step_refl _, af_table_step_refl _⟩
  | cons g gs ih =>
      have h1 := rds_decoder_decode_af_state decoder s g
      have h2 := ih (rds_decoder_decode decoder s g)
      exact ⟨af_group_step_trans _ _ _ h1.1 h2.1,
        af_table_step_trans _ _ _ h1.2 h2.2⟩

theorem af_group_wf_zero : af_group_wf rdsDataZero.af := by
  refine ⟨by simp [rdsDataZero], by simp [rdsDataZero], ?_⟩
  intro t ht
  simp only [rdsDataZero, List.mem_replicate] at ht
  rw [ht.2]
  exact af_table_wf_zero

theorem af_table_wf_eon_zero : af_table_wf rdsDataZero.eon.on_.af.table :=
  af_table_wf_zero

/-- C8.  Over any sequence of decode calls from a state whose AF group
and EON AF table are well formed, every AF table count is
non-decreasing and stays within 25, no stored table acquires a
duplicate frequency, and the AF table group count is non-decreasing
and stays within 20. -/
theorem c8_af_counts_monotone_bounded_nodup (decoder : rds_decoder)
    (s : rds_data) (gs : List rds_blocks)
    (hg : af_group_wf s.af) (he : af_table_wf s.eon.on_.af.table) :
    let t := gs.foldl (fun r g => rds_decoder_decode decoder r g) s
    (s.af.count ≤ t.af.count ∧ t.af.count ≤ 20) ∧
    (∀ i, ((s.af.table.getD i afDecodeTableZero).table).count ≤
        ((t.af.table.getD i afDecodeTableZero).table).count) ∧
    (∀ u ∈ t.af.table, u.table.count ≤ 25 ∧ af_table_nodup u.table) ∧
    (s.eon.on_.af.table.count ≤ t.eon.on_.af.table.count ∧
      t.eon.on_.af.table.count ≤ 25 ∧
      af_table_nodup t.eon.on_.af.table) := by
  intro t
  obtain ⟨hga, hea⟩ := decode_foldl_af_state decoder gs s
  obtain ⟨hc, hlen, hb, htab, hwfp⟩ := hga
  obtain ⟨hc20, hlen20, hall⟩ := hwfp hg
  obtain ⟨hec, helen, heb, hewf⟩ := hea
  have hewf' := hewf he
  refine ⟨⟨hc, hc20⟩, fun i => (htab i).1, fun u hu => ?_, hec,
    hewf'.1, hewf'.2.2⟩
  exact ⟨(hall u hu).1, (hall u hu).2.2⟩

theorem c8_af_counts_monotone_bounded_nodup_witness :
    af_group_wf rdsDataZero.af ∧
    af_table_wf rdsDataZero.eon.on_.af.table ∧
    (let t := [c5_group, c3_group].foldl
        (fun r g => rds_decoder_decode cfg0 r g) rdsDataZero;
      (rdsDataZero.af.count ≤ t.af.count ∧ t.af.count ≤ 20) ∧
      (∀ i, ((rdsDataZero.af.table.getD i afDecodeTableZero).table).count ≤
          ((t.af.table.getD i afDecodeTableZero).table).count) ∧
      (∀ u ∈ t.af.table, u.table.count ≤ 25 ∧ af_table_nodup u.table) ∧
      (rdsDataZero.eon.on_.af.table.count ≤ t.eon.on_.af.table.count ∧
        t.eon.on_.af.table.count ≤ 25 ∧
        af_table_nodup t.eon.on_.af.table)) :=
  ⟨af_group_wf_zero, af_table_wf_eon_zero,
    c8_af_counts_monotone_bounded_nodup cfg0 rdsDataZero [c5_group, c3_group]
      af_group_wf_zero af_table_wf_eon_zero⟩
